import Mathlib

/-!
Shallow embedding of `src/sla_customization/services/sla_engine.py`.

Timestamps are modelled as rationals (seconds on an absolute time line);
Python `None` becomes `Option.none`.  The frappe document store is modelled
as an association list of `SlaUpdate` records keyed by `ticket_id`, the
ticket table as a list of `Ticket`s, and the assignee directory / user
e-mail lookup as functions inside an `Env`.  `now_datetime()` becomes an
explicit `now : ℚ` parameter.  Mail dispatch is modelled by returning the
list of e-mails the cycle sends, in order.
-/

namespace SlaEngine

/-- Ticket status values used by the engine (`HD Ticket.status`). -/
inductive Status where
  | Open
  | InProgress
  | Resolved
  | Closed
deriving DecidableEq

/-- The fields of an `HD Ticket` document that the engine reads (and, for
the lifecycle closer, the `status` field it writes). -/
structure Ticket where
  name : String
  status : Status
  creation : Option ℚ
  response_by : Option ℚ
  resolution_by : Option ℚ
  first_response_time : Option ℚ
  resolution_time : Option ℚ
  resolution_date : Option ℚ
deriving DecidableEq

/-- The `Sla Update` custom doctype: per-ticket tracking record. -/
structure SlaUpdate where
  ticket_id : String
  first_responded_on : Option ℚ
  resolution_date : Option ℚ
  fr_50_notified : Bool
  fr_75_notified : Bool
  fr_100_notified : Bool
  res_50_notified : Bool
  res_75_notified : Bool
  res_100_notified : Bool
deriving DecidableEq

/-- A freshly inserted `Sla Update` doc: only `ticket_id` set, flags 0. -/
def newRecord (tid : String) : SlaUpdate :=
  ⟨tid, none, none, false, false, false, false, false, false⟩

/-- Dynamic attribute read `getattr(sla_update, f"fr_{m}_notified", 0)`. -/
def SlaUpdate.frFlag (su : SlaUpdate) : ℕ → Bool
  | 50 => su.fr_50_notified
  | 75 => su.fr_75_notified
  | 100 => su.fr_100_notified
  | _ => false

/-- Dynamic attribute read `getattr(sla_update, f"res_{m}_notified", 0)`. -/
def SlaUpdate.resFlag (su : SlaUpdate) : ℕ → Bool
  | 50 => su.res_50_notified
  | 75 => su.res_75_notified
  | 100 => su.res_100_notified
  | _ => false

/-- Dynamic attribute write `setattr(sla_update, f"fr_{m}_notified", 1)`. -/
def SlaUpdate.setFr (su : SlaUpdate) (m : ℕ) : SlaUpdate :=
  match m with
  | 50 => { su with fr_50_notified := true }
  | 75 => { su with fr_75_notified := true }
  | 100 => { su with fr_100_notified := true }
  | _ => su

/-- Dynamic attribute write `setattr(sla_update, f"res_{m}_notified", 1)`. -/
def SlaUpdate.setRes (su : SlaUpdate) (m : ℕ) : SlaUpdate :=
  match m with
  | 50 => { su with res_50_notified := true }
  | 75 => { su with res_75_notified := true }
  | 100 => { su with res_100_notified := true }
  | _ => su

/-- External collaborators: the open-`ToDo` assignee lookup (ticket name to
user id) and the `User.email` lookup. -/
structure Env where
  openAssignee : String → Option String
  userEmail : String → Option String

/-- `get_ticket_assignee_email`: first open ToDo assignee's e-mail, or
`None` when there is no open assignee or the user has no e-mail. -/
def get_ticket_assignee_email (env : Env) (ticket_name : String) : Option String :=
  match env.openAssignee ticket_name with
  | none => none
  | some u => env.userEmail u

/-- One outbound e-mail as handed to `frappe.sendmail`. -/
structure Email where
  recipient : String
  subject : String
  message : String
deriving DecidableEq

/-- The `sla_label` selection in `send_email`. -/
def slaLabel (sla_type : String) : String :=
  if sla_type = "first response" then "First Response SLA" else "Resolution SLA"

/-- The subject line built in `send_email`. -/
def mailSubject (sla_type : String) (milestone : ℕ) (ticket_name : String) : String :=
  slaLabel sla_type ++ " Alert (" ++ toString milestone ++ "%) – Ticket " ++ ticket_name

/-- The message body built in `send_email` (terminal-breach wording at 100). -/
def mailMessage (sla_type : String) (milestone : ℕ) (ticket_name : String) : String :=
  if milestone = 100 then
    "All " ++ sla_type ++ " time for ticket " ++ ticket_name ++
      " has passed.<br><br>Immediate action is required."
  else
    toString milestone ++ "% of " ++ sla_type ++ " time has passed for ticket " ++
      ticket_name ++ "."

/-- `send_email`: resolve the assignee e-mail; silently do nothing when it
is absent, otherwise send exactly one message. -/
def send_email (env : Env) (ticket : Ticket) (sla_type : String) (milestone : ℕ) :
    List Email :=
  match get_ticket_assignee_email env ticket.name with
  | none => []
  | some addr =>
      [⟨addr, mailSubject sla_type milestone ticket.name,
        mailMessage sla_type milestone ticket.name⟩]

/-- `get_percentage(start, due)`: elapsed SLA percentage at time `now`
(the Python reads `now_datetime()`; here `now` is explicit). -/
def get_percentage (start due : Option ℚ) (now : ℚ) : ℚ :=
  match start, due with
  | some s, some d =>
      if d - s ≤ 0 then 100
      else min ((now - s) / (d - s) * 100) 100
  | _, _ => 0

/-- `record_first_response_time`: set `first_responded_on` to the current
evaluation time when the ticket is In-Progress and the field is unset. -/
def record_first_response_time (now : ℚ) (ticket : Ticket) (sla_update : SlaUpdate) :
    SlaUpdate :=
  if ticket.status = Status.InProgress ∧ sla_update.first_responded_on = none then
    { sla_update with first_responded_on := some now }
  else sla_update

/-- `record_resolution_time`: copy the ticket's `resolution_date` once it
appears, only while the record's field is unset. -/
def record_resolution_time (ticket : Ticket) (sla_update : SlaUpdate) : SlaUpdate :=
  if ticket.resolution_date.isSome ∧ sla_update.resolution_date = none then
    { sla_update with resolution_date := ticket.resolution_date }
  else sla_update

/-- One iteration of the milestone loop in `handle_first_response`. -/
def frStep (env : Env) (ticket : Ticket) (pct : ℚ) (acc : SlaUpdate × List Email)
    (milestone : ℕ) : SlaUpdate × List Email :=
  if pct < (milestone : ℚ) then acc
  else if acc.1.frFlag milestone then acc
  else (acc.1.setFr milestone, acc.2 ++ send_email env ticket "first response" milestone)

/-- `handle_first_response`: guard on `ticket.first_response_time`, then the
50/75/100 milestone loop over the first-response window. -/
def handle_first_response (env : Env) (now : ℚ) (ticket : Ticket)
    (sla_update : SlaUpdate) : SlaUpdate × List Email :=
  if ticket.first_response_time.isSome then (sla_update, [])
  else
    let pct := get_percentage ticket.creation ticket.response_by now
    [50, 75, 100].foldl (frStep env ticket pct) (sla_update, [])

/-- One iteration of the milestone loop in `handle_resolution`. -/
def resStep (env : Env) (ticket : Ticket) (pct : ℚ) (acc : SlaUpdate × List Email)
    (milestone : ℕ) : SlaUpdate × List Email :=
  if pct < (milestone : ℚ) then acc
  else if acc.1.resFlag milestone then acc
  else (acc.1.setRes milestone, acc.2 ++ send_email env ticket "resolution" milestone)

/-- `handle_resolution`: guard on `ticket.resolution_time`, then the
50/75/100 milestone loop over the resolution window. -/
def handle_resolution (env : Env) (now : ℚ) (ticket : Ticket)
    (sla_update : SlaUpdate) : SlaUpdate × List Email :=
  if ticket.resolution_time.isSome then (sla_update, [])
  else
    let pct := get_percentage ticket.creation ticket.resolution_by now
    [50, 75, 100].foldl (resStep env ticket pct) (sla_update, [])

/-- `close_resolved_tickets`, restricted to one ticket: a Resolved ticket
is closed when `add_days(resolution_date, 2) < now` (2 days = 172800 s);
`add_days(None, 2)` evaluates against the current time and never closes. -/
def close_ticket (now : ℚ) (t : Ticket) : Ticket :=
  if t.status = Status.Resolved then
    match t.resolution_date with
    | some d => if d + 172800 < now then { t with status := Status.Closed } else t
    | none => t
  else t

/-- `close_resolved_tickets` over the ticket table: only Resolved tickets
are fetched and possibly transitioned. -/
def close_resolved_tickets (now : ℚ) (tickets : List Ticket) : List Ticket :=
  tickets.map (close_ticket now)

/-- Lookup of an `Sla Update` doc by `ticket_id` (first match, as the
`frappe.get_all` + `get_doc` pair returns the first existing doc). -/
def findRecord : List SlaUpdate → String → Option SlaUpdate
  | [], _ => none
  | r :: rs, tid => if r.ticket_id = tid then some r else findRecord rs tid

/-- `doc.save()` on the tracking store: replace the stored doc with the
same `ticket_id` (insert when somehow absent). -/
def saveRecord : List SlaUpdate → SlaUpdate → List SlaUpdate
  | [], r => [r]
  | x :: xs, r => if x.ticket_id = r.ticket_id then r :: xs else x :: saveRecord xs r

/-- `get_or_create_sla_update`: return the existing doc for the ticket, or
insert (and persist) a fresh one. -/
def get_or_create_sla_update (store : List SlaUpdate) (ticket_name : String) :
    SlaUpdate × List SlaUpdate :=
  match findRecord store ticket_name with
  | some r => (r, store)
  | none => (newRecord ticket_name, store ++ [newRecord ticket_name])

/-- The persisted world the engine acts on: the ticket table and the
`Sla Update` tracking store. -/
structure World where
  tickets : List Ticket
  store : List SlaUpdate
deriving DecidableEq

/-- `get_tickets_by_status`: filter the ticket table by a status list. -/
def get_tickets_by_status (w : World) (statuses : List Status) : List Ticket :=
  w.tickets.filter (fun t => statuses.contains t.status)

/-- Step 1 of `run` for one ticket: load-or-create the record, run both
timestamp recorders, persist. -/
def statePhaseStep (now : ℚ) (st : List SlaUpdate) (t : Ticket) : List SlaUpdate :=
  let p := get_or_create_sla_update st t.name
  saveRecord p.2 (record_resolution_time t (record_first_response_time now t p.1))

/-- Step 1 of `run`: timestamp recording over the fetched tickets. -/
def runStatePhase (now : ℚ) (tickets : List Ticket) (store : List SlaUpdate) :
    List SlaUpdate :=
  tickets.foldl (statePhaseStep now) store

/-- Step 2 of `run` for one ticket: load-or-create the record, run the
first-response handler, persist, accumulate the sent mail. -/
def frPhaseStep (env : Env) (now : ℚ) (acc : List SlaUpdate × List Email)
    (t : Ticket) : List SlaUpdate × List Email :=
  let p := get_or_create_sla_update acc.1 t.name
  let r := handle_first_response env now t p.1
  (saveRecord p.2 r.1, acc.2 ++ r.2)

/-- Step 2 of `run`: the first-response milestone pass. -/
def runFrPhase (env : Env) (now : ℚ) (tickets : List Ticket)
    (store : List SlaUpdate) : List SlaUpdate × List Email :=
  tickets.foldl (frPhaseStep env now) (store, [])

/-- Step 3 of `run` for one ticket: load-or-create the record, run the
resolution handler, persist, accumulate the sent mail. -/
def resPhaseStep (env : Env) (now : ℚ) (acc : List SlaUpdate × List Email)
    (t : Ticket) : List SlaUpdate × List Email :=
  let p := get_or_create_sla_update acc.1 t.name
  let r := handle_resolution env now t p.1
  (saveRecord p.2 r.1, acc.2 ++ r.2)

/-- Step 3 of `run`: the resolution milestone pass. -/
def runResPhase (env : Env) (now : ℚ) (tickets : List Ticket)
    (store : List SlaUpdate) : List SlaUpdate × List Email :=
  tickets.foldl (resPhaseStep env now) (store, [])

/-- `run`: the scheduler entry point — timestamp recording over all
statuses, first-response SLA over Open tickets, resolution SLA over
Open and In-Progress tickets, then the lifecycle closer.  Returns the
updated world and every e-mail the cycle sent, in order. -/
def run (env : Env) (now : ℚ) (w : World) : World × List Email :=
  let state_tickets :=
    get_tickets_by_status w [Status.Open, Status.InProgress, Status.Resolved, Status.Closed]
  let st1 := runStatePhase now state_tickets w.store
  let open_tickets := get_tickets_by_status w [Status.Open]
  let p2 := runFrPhase env now open_tickets st1
  let resolution_tickets := get_tickets_by_status w [Status.Open, Status.InProgress]
  let p3 := runResPhase env now resolution_tickets p2.1
  (⟨close_resolved_tickets now w.tickets, p3.1⟩, p2.2 ++ p3.2)

/-!
Failure model for the orchestrator.  `run` in the source contains no
`try`/`except`: an exception raised by a collaborator (here: mail
transport) propagates out of the loop.  `FEnv.mailOk` tells which
recipients the transport can deliver to; a `false` recipient makes
`frappe.sendmail` raise.  Everything is threaded through `Except`, so a
raised error aborts the rest of the cycle exactly as an uncaught Python
exception would.
-/

/-- Collaborators with a fallible mail transport and fallible record
persistence: `mailOk` tells which recipients the transport can deliver
to, `saveOk` tells for which tickets the tracking store can persist the
updated record (`doc.save()` / `frappe.db.commit()`). -/
structure FEnv where
  openAssignee : String → Option String
  userEmail : String → Option String
  mailOk : String → Bool
  saveOk : String → Bool

/-- The pure part of an `FEnv` (assignee and e-mail lookups). -/
def FEnv.toEnv (env : FEnv) : Env :=
  ⟨env.openAssignee, env.userEmail⟩

/-- `send_email` with a transport that can raise on delivery. -/
def send_email_f (env : FEnv) (ticket : Ticket) (sla_type : String) (milestone : ℕ) :
    Except String (List Email) :=
  match get_ticket_assignee_email env.toEnv ticket.name with
  | none => Except.ok []
  | some addr =>
      if env.mailOk addr then
        Except.ok [⟨addr, mailSubject sla_type milestone ticket.name,
          mailMessage sla_type milestone ticket.name⟩]
      else Except.error ("mail delivery failed: " ++ addr)

/-- Milestone-loop iteration of `handle_first_response` under the
fallible transport. -/
def frStepF (env : FEnv) (ticket : Ticket) (pct : ℚ) (acc : SlaUpdate × List Email)
    (milestone : ℕ) : Except String (SlaUpdate × List Email) :=
  if pct < (milestone : ℚ) then Except.ok acc
  else if acc.1.frFlag milestone then Except.ok acc
  else
    match send_email_f env ticket "first response" milestone with
    | Except.error e => Except.error e
    | Except.ok es => Except.ok (acc.1.setFr milestone, acc.2 ++ es)

/-- `handle_first_response` under the fallible transport. -/
def handle_first_response_f (env : FEnv) (now : ℚ) (ticket : Ticket)
    (sla_update : SlaUpdate) : Except String (SlaUpdate × List Email) :=
  if ticket.first_response_time.isSome then Except.ok (sla_update, [])
  else
    let pct := get_percentage ticket.creation ticket.response_by now
    [50, 75, 100].foldlM (frStepF env ticket pct) (sla_update, [])

/-- Milestone-loop iteration of `handle_resolution` under the fallible
transport. -/
def resStepF (env : FEnv) (ticket : Ticket) (pct : ℚ) (acc : SlaUpdate × List Email)
    (milestone : ℕ) : Except String (SlaUpdate × List Email) :=
  if pct < (milestone : ℚ) then Except.ok acc
  else if acc.1.resFlag milestone then Except.ok acc
  else
    match send_email_f env ticket "resolution" milestone with
    | Except.error e => Except.error e
    | Except.ok es => Except.ok (acc.1.setRes milestone, acc.2 ++ es)

/-- `handle_resolution` under the fallible transport. -/
def handle_resolution_f (env : FEnv) (now : ℚ) (ticket : Ticket)
    (sla_update : SlaUpdate) : Except String (SlaUpdate × List Email) :=
  if ticket.resolution_time.isSome then Except.ok (sla_update, [])
  else
    let pct := get_percentage ticket.creation ticket.resolution_by now
    [50, 75, 100].foldlM (resStepF env ticket pct) (sla_update, [])

/-- Step 2 of `run` for one ticket under the fallible collaborators: an
uncaught exception from the handler (mail) or from persisting the
updated record propagates. -/
def frPhaseStepF (env : FEnv) (now : ℚ) (acc : List SlaUpdate × List Email)
    (t : Ticket) : Except String (List SlaUpdate × List Email) :=
  let p := get_or_create_sla_update acc.1 t.name
  match handle_first_response_f env now t p.1 with
  | Except.error e => Except.error e
  | Except.ok r =>
      if env.saveOk t.name then Except.ok (saveRecord p.2 r.1, acc.2 ++ r.2)
      else Except.error ("save failed: " ++ t.name)

/-- Step 2 of `run` under the fallible transport. -/
def runFrPhaseF (env : FEnv) (now : ℚ) (tickets : List Ticket)
    (store : List SlaUpdate) : Except String (List SlaUpdate × List Email) :=
  tickets.foldlM (frPhaseStepF env now) (store, [])

/-- Step 3 of `run` for one ticket under the fallible collaborators. -/
def resPhaseStepF (env : FEnv) (now : ℚ) (acc : List SlaUpdate × List Email)
    (t : Ticket) : Except String (List SlaUpdate × List Email) :=
  let p := get_or_create_sla_update acc.1 t.name
  match handle_resolution_f env now t p.1 with
  | Except.error e => Except.error e
  | Except.ok r =>
      if env.saveOk t.name then Except.ok (saveRecord p.2 r.1, acc.2 ++ r.2)
      else Except.error ("save failed: " ++ t.name)

/-- Step 3 of `run` under the fallible transport. -/
def runResPhaseF (env : FEnv) (now : ℚ) (tickets : List Ticket)
    (store : List SlaUpdate) : Except String (List SlaUpdate × List Email) :=
  tickets.foldlM (resPhaseStepF env now) (store, [])

/-- `run` under the fallible transport: no exception handler anywhere, so
a single delivery failure aborts the whole cycle. -/
def runF (env : FEnv) (now : ℚ) (w : World) : Except String (World × List Email) :=
  let state_tickets :=
    get_tickets_by_status w [Status.Open, Status.InProgress, Status.Resolved, Status.Closed]
  let st1 := runStatePhase now state_tickets w.store
  let open_tickets := get_tickets_by_status w [Status.Open]
  match runFrPhaseF env now open_tickets st1 with
  | Except.error e => Except.error e
  | Except.ok p2 =>
    let resolution_tickets := get_tickets_by_status w [Status.Open, Status.InProgress]
    match runResPhaseF env now resolution_tickets p2.1 with
    | Except.error e => Except.error e
    | Except.ok p3 =>
        Except.ok (⟨close_resolved_tickets now w.tickets, p3.1⟩, p2.2 ++ p3.2)

/-!  Concrete fixtures used by counterexamples and witnesses. -/

/-- An environment where every ticket resolves to one assignee with a
working address. -/
def exEnv : Env := ⟨fun _ => some "agent", fun _ => some "agent@example.com"⟩

/-- An environment with no open assignee for any ticket. -/
def exEnvNoAssignee : Env := ⟨fun _ => none, fun _ => some "agent@example.com"⟩

/-- An open ticket with first-response window 0 → 100 s and no response
yet. -/
def exOpenTicket : Ticket :=
  ⟨"TKT-1", Status.Open, some 0, some 100, some 200, none, none, none⟩

/-- A resolved ticket whose resolution date is time 0. -/
def exResolvedTicket : Ticket :=
  ⟨"TKT-2", Status.Resolved, some 0, none, none, none, none, some 0⟩

/-- A ticket whose first response and resolution are already recorded. -/
def exGuardedTicket : Ticket :=
  ⟨"TKT-3", Status.Open, some 0, some 100, some 200, some 5, some 7, some 7⟩

/-- An In-Progress ticket with no timestamps recorded yet. -/
def exInProgressTicket : Ticket :=
  ⟨"TKT-4", Status.InProgress, some 0, some 100, some 200, none, none, none⟩

/-- A fallible environment whose transport rejects ticket A's assignee
address, accepts every other one, and whose store always persists. -/
def exFEnv : FEnv :=
  ⟨fun n => some n, fun n => some (n ++ "@example.com"),
   fun a => a != "A@example.com", fun _ => true⟩

/-- Open ticket "A", halfway through its first-response window at `now = 60`. -/
def exTicketA : Ticket := ⟨"A", Status.Open, some 0, some 100, none, none, none, none⟩

/-- Open ticket "B", identical deadlines to ticket A. -/
def exTicketB : Ticket := ⟨"B", Status.Open, some 0, some 100, none, none, none, none⟩

/-- A world holding tickets A and B and an empty tracking store. -/
def exWorldAB : World := ⟨[exTicketA, exTicketB], []⟩

/-!  Observational definitions used to state the claims. -/

/-- The elapsed percentage of the first-response window, as the handler
computes it. -/
def pctFr (t : Ticket) (now : ℚ) : ℚ := get_percentage t.creation t.response_by now

/-- The elapsed percentage of the resolution window, as the handler
computes it. -/
def pctRes (t : Ticket) (now : ℚ) : ℚ := get_percentage t.creation t.resolution_by now

/-- The spec's description of the newly crossed first-response milestones:
every `m ∈ {50, 75, 100}` with `pct ≥ m` whose flag is still false, in
ascending order. -/
def frNewlyCrossed (pct : ℚ) (su : SlaUpdate) : List ℕ :=
  [50, 75, 100].filter (fun m => decide ((m : ℚ) ≤ pct) && !su.frFlag m)

/-- The spec's description of the newly crossed resolution milestones. -/
def resNewlyCrossed (pct : ℚ) (su : SlaUpdate) : List ℕ :=
  [50, 75, 100].filter (fun m => decide ((m : ℚ) ≤ pct) && !su.resFlag m)

/-- The record with every reached first-response milestone flag set. -/
def frSaturate (pct : ℚ) (su : SlaUpdate) : SlaUpdate :=
  { su with
    fr_50_notified := su.fr_50_notified || decide (((50 : ℕ) : ℚ) ≤ pct),
    fr_75_notified := su.fr_75_notified || decide (((75 : ℕ) : ℚ) ≤ pct),
    fr_100_notified := su.fr_100_notified || decide (((100 : ℕ) : ℚ) ≤ pct) }

/-- The record with every reached resolution milestone flag set. -/
def resSaturate (pct : ℚ) (su : SlaUpdate) : SlaUpdate :=
  { su with
    res_50_notified := su.res_50_notified || decide (((50 : ℕ) : ℚ) ≤ pct),
    res_75_notified := su.res_75_notified || decide (((75 : ℕ) : ℚ) ≤ pct),
    res_100_notified := su.res_100_notified || decide (((100 : ℕ) : ℚ) ≤ pct) }

/-- First-response flags that flipped from false to true between two
record states. -/
def frTransitions (su su' : SlaUpdate) : List ℕ :=
  [50, 75, 100].filter (fun m => !su.frFlag m && su'.frFlag m)

/-- Resolution flags that flipped from false to true between two record
states. -/
def resTransitions (su su' : SlaUpdate) : List ℕ :=
  [50, 75, 100].filter (fun m => !su.resFlag m && su'.resFlag m)

/-- A threaded sequence of first-response evaluations of one ticket,
collecting the milestones whose flag flips at each step. -/
def evalSeqFr : List (Env × ℚ) → Ticket → SlaUpdate → SlaUpdate × List ℕ
  | [], _, su => (su, [])
  | c :: cs, t, su =>
      let r := handle_first_response c.1 c.2 t su
      let rest := evalSeqFr cs t r.1
      (rest.1, frTransitions su r.1 ++ rest.2)

/-- A threaded sequence of resolution evaluations of one ticket. -/
def evalSeqRes : List (Env × ℚ) → Ticket → SlaUpdate → SlaUpdate × List ℕ
  | [], _, su => (su, [])
  | c :: cs, t, su =>
      let r := handle_resolution c.1 c.2 t su
      let rest := evalSeqRes cs t r.1
      (rest.1, resTransitions su r.1 ++ rest.2)

/-- Record evolution order: `ticket_id` stable, timestamps write-once,
notified flags only ever move false → true. -/
def RecLe (su su' : SlaUpdate) : Prop :=
  su'.ticket_id = su.ticket_id ∧
  (su.first_responded_on ≠ none → su'.first_responded_on = su.first_responded_on) ∧
  (su.resolution_date ≠ none → su'.resolution_date = su.resolution_date) ∧
  (su.fr_50_notified = true → su'.fr_50_notified = true) ∧
  (su.fr_75_notified = true → su'.fr_75_notified = true) ∧
  (su.fr_100_notified = true → su'.fr_100_notified = true) ∧
  (su.res_50_notified = true → su'.res_50_notified = true) ∧
  (su.res_75_notified = true → su'.res_75_notified = true) ∧
  (su.res_100_notified = true → su'.res_100_notified = true)

/-- Store evolution order: every stored record survives and only evolves
upward in `RecLe`. -/
def StoreLe (S S' : List SlaUpdate) : Prop :=
  ∀ n su, findRecord S n = some su → ∃ su', findRecord S' n = some su' ∧ RecLe su su'

/-- The first-response handler has nothing left to do for this ticket on
this record: either the guard is set or every reached milestone flag is
already true. -/
def FrDone (now : ℚ) (t : Ticket) (su : SlaUpdate) : Prop :=
  t.first_response_time ≠ none ∨
    ∀ m ∈ ([50, 75, 100] : List ℕ), (m : ℚ) ≤ pctFr t now → su.frFlag m = true

/-- The resolution handler has nothing left to do for this ticket on this
record. -/
def ResDone (now : ℚ) (t : Ticket) (su : SlaUpdate) : Prop :=
  t.resolution_time ≠ none ∨
    ∀ m ∈ ([50, 75, 100] : List ℕ), (m : ℚ) ≤ pctRes t now → su.resFlag m = true

/-- The store holds a record for the ticket on which the first-response
handler has nothing left to do. -/
def FrDoneIn (now : ℚ) (t : Ticket) (S : List SlaUpdate) : Prop :=
  ∃ su, findRecord S t.name = some su ∧ FrDone now t su

/-- The store holds a record for the ticket on which the resolution
handler has nothing left to do. -/
def ResDoneIn (now : ℚ) (t : Ticket) (S : List SlaUpdate) : Prop :=
  ∃ su, findRecord S t.name = some su ∧ ResDone now t su

/-!  Helper lemmas about the milestone handlers. -/

/-- One first-response loop iteration, rewritten as a Boolean `cond` on
`decide (m ≤ pct)` and the current flag. -/
theorem frStep_cond (env : Env) (t : Ticket) (pct : ℚ) (acc : SlaUpdate × List Email)
    (m : ℕ) :
    frStep env t pct acc m =
      cond (decide ((m : ℚ) ≤ pct) && !acc.1.frFlag m)
        (acc.1.setFr m, acc.2 ++ send_email env t "first response" m) acc := by
  unfold frStep
  cases hle : decide ((m : ℚ) ≤ pct) with
  | false =>
      have h : ¬ ((m : ℚ) ≤ pct) := of_decide_eq_false hle
      rw [if_pos (not_le.mp h)]
      simp
  | true =>
      have h : ((m : ℚ) ≤ pct) := of_decide_eq_true hle
      rw [if_neg (not_lt.mpr h)]
      cases hf : acc.1.frFlag m <;> simp [hf]

/-- One resolution loop iteration, rewritten as a Boolean `cond`. -/
theorem resStep_cond (env : Env) (t : Ticket) (pct : ℚ) (acc : SlaUpdate × List Email)
    (m : ℕ) :
    resStep env t pct acc m =
      cond (decide ((m : ℚ) ≤ pct) && !acc.1.resFlag m)
        (acc.1.setRes m, acc.2 ++ send_email env t "resolution" m) acc := by
  unfold resStep
  cases hle : decide ((m : ℚ) ≤ pct) with
  | false =>
      have h : ¬ ((m : ℚ) ≤ pct) := of_decide_eq_false hle
      rw [if_pos (not_le.mp h)]
      simp
  | true =>
      have h : ((m : ℚ) ≤ pct) := of_decide_eq_true hle
      rw [if_neg (not_lt.mpr h)]
      cases hf : acc.1.resFlag m <;> simp [hf]

/-- The first-response milestone loop computes exactly the spec's
newly-crossed set and flag saturation. -/
theorem foldl_frStep_char (env : Env) (t : Ticket) (pct : ℚ) (su : SlaUpdate) :
    [50, 75, 100].foldl (frStep env t pct) (su, []) =
      (frSaturate pct su,
        (frNewlyCrossed pct su).flatMap (send_email env t "first response")) := by
  obtain ⟨tid, fro, rd, f50, f75, f100, r50, r75, r100⟩ := su
  simp only [List.foldl_cons, List.foldl_nil, frStep_cond, frNewlyCrossed,
    frSaturate, List.filter_cons, List.filter_nil]
  generalize decide (((50 : ℕ) : ℚ) ≤ pct) = b50
  generalize decide (((75 : ℕ) : ℚ) ≤ pct) = b75
  generalize decide (((100 : ℕ) : ℚ) ≤ pct) = b100
  cases b50 <;> cases b75 <;> cases b100 <;>
    cases f50 <;> cases f75 <;> cases f100 <;>
      simp [SlaUpdate.frFlag, SlaUpdate.setFr]

/-- The resolution milestone loop computes exactly the spec's
newly-crossed set and flag saturation. -/
theorem foldl_resStep_char (env : Env) (t : Ticket) (pct : ℚ) (su : SlaUpdate) :
    [50, 75, 100].foldl (resStep env t pct) (su, []) =
      (resSaturate pct su,
        (resNewlyCrossed pct su).flatMap (send_email env t "resolution")) := by
  obtain ⟨tid, fro, rd, f50, f75, f100, r50, r75, r100⟩ := su
  simp only [List.foldl_cons, List.foldl_nil, resStep_cond, resNewlyCrossed,
    resSaturate, List.filter_cons, List.filter_nil]
  generalize decide (((50 : ℕ) : ℚ) ≤ pct) = b50
  generalize decide (((75 : ℕ) : ℚ) ≤ pct) = b75
  generalize decide (((100 : ℕ) : ℚ) ≤ pct) = b100
  cases b50 <;> cases b75 <;> cases b100 <;>
    cases r50 <;> cases r75 <;> cases r100 <;>
      simp [SlaUpdate.resFlag, SlaUpdate.setRes]

/-- `handle_first_response` on an unresponded ticket: saturate the flags,
mail the newly crossed milestones in ascending order. -/
theorem handle_fr_char (env : Env) (now : ℚ) (t : Ticket) (su : SlaUpdate)
    (h : t.first_response_time = none) :
    handle_first_response env now t su =
      (frSaturate (pctFr t now) su,
        (frNewlyCrossed (pctFr t now) su).flatMap
          (send_email env t "first response")) := by
  unfold handle_first_response
  rw [h]
  simpa [pctFr] using foldl_frStep_char env t (get_percentage t.creation t.response_by now) su

/-- `handle_resolution` on an unresolved ticket: saturate the flags, mail
the newly crossed milestones in ascending order. -/
theorem handle_res_char (env : Env) (now : ℚ) (t : Ticket) (su : SlaUpdate)
    (h : t.resolution_time = none) :
    handle_resolution env now t su =
      (resSaturate (pctRes t now) su,
        (resNewlyCrossed (pctRes t now) su).flatMap
          (send_email env t "resolution")) := by
  unfold handle_resolution
  rw [h]
  simpa [pctRes] using foldl_resStep_char env t (get_percentage t.creation t.resolution_by now) su

/-- The saturated first-response flag of a reachable milestone. -/
theorem frSaturate_flag (pct : ℚ) (su : SlaUpdate) :
    ∀ m ∈ ([50, 75, 100] : List ℕ),
      (frSaturate pct su).frFlag m = (su.frFlag m || decide ((m : ℚ) ≤ pct)) := by
  intro m hm
  fin_cases hm <;> rfl

/-- The saturated resolution flag of a reachable milestone. -/
theorem resSaturate_flag (pct : ℚ) (su : SlaUpdate) :
    ∀ m ∈ ([50, 75, 100] : List ℕ),
      (resSaturate pct su).resFlag m = (su.resFlag m || decide ((m : ℚ) ≤ pct)) := by
  intro m hm
  fin_cases hm <;> rfl

/-- A done record makes the first-response handler a strict no-op. -/
theorem handle_fr_quiet (env : Env) (now : ℚ) (t : Ticket) (su : SlaUpdate)
    (h : FrDone now t su) : handle_first_response env now t su = (su, []) := by
  rcases ht : t.first_response_time with _ | x
  · rcases h with hg | hflags
    · exact absurd ht hg
    · rw [handle_fr_char env now t su ht]
      have d50 : (su.fr_50_notified || decide (((50 : ℕ) : ℚ) ≤ pctFr t now)) =
          su.fr_50_notified := by
        rcases le_or_lt ((50 : ℕ) : ℚ) (pctFr t now) with hle | hlt
        · have := hflags 50 (by simp) hle
          simp [SlaUpdate.frFlag] at this
          simp [this]
        · simp only [decide_eq_false (not_le_of_lt hlt), Bool.or_false, Bool.false_and]
      have d75 : (su.fr_75_notified || decide (((75 : ℕ) : ℚ) ≤ pctFr t now)) =
          su.fr_75_notified := by
        rcases le_or_lt ((75 : ℕ) : ℚ) (pctFr t now) with hle | hlt
        · have := hflags 75 (by simp) hle
          simp [SlaUpdate.frFlag] at this
          simp [this]
        · simp only [decide_eq_false (not_le_of_lt hlt), Bool.or_false, Bool.false_and]
      have d100 : (su.fr_100_notified || decide (((100 : ℕ) : ℚ) ≤ pctFr t now)) =
          su.fr_100_notified := by
        rcases le_or_lt ((100 : ℕ) : ℚ) (pctFr t now) with hle | hlt
        · have := hflags 100 (by simp) hle
          simp [SlaUpdate.frFlag] at this
          simp [this]
        · simp only [decide_eq_false (not_le_of_lt hlt), Bool.or_false, Bool.false_and]
      have e50 : (decide (((50 : ℕ) : ℚ) ≤ pctFr t now) && !su.frFlag 50) = false := by
        rcases le_or_lt ((50 : ℕ) : ℚ) (pctFr t now) with hle | hlt
        · simp [hflags 50 (by simp) hle]
        · simp only [decide_eq_false (not_le_of_lt hlt), Bool.or_false, Bool.false_and]
      have e75 : (decide (((75 : ℕ) : ℚ) ≤ pctFr t now) && !su.frFlag 75) = false := by
        rcases le_or_lt ((75 : ℕ) : ℚ) (pctFr t now) with hle | hlt
        · simp [hflags 75 (by simp) hle]
        · simp only [decide_eq_false (not_le_of_lt hlt), Bool.or_false, Bool.false_and]
      have e100 : (decide (((100 : ℕ) : ℚ) ≤ pctFr t now) && !su.frFlag 100) = false := by
        rcases le_or_lt ((100 : ℕ) : ℚ) (pctFr t now) with hle | hlt
        · simp [hflags 100 (by simp) hle]
        · simp only [decide_eq_false (not_le_of_lt hlt), Bool.or_false, Bool.false_and]
      have hsat : frSaturate (pctFr t now) su = su := by
        unfold frSaturate
        rw [d50, d75, d100]
      have hnew : frNewlyCrossed (pctFr t now) su = [] := by
        simp only [frNewlyCrossed, List.filter_cons, List.filter_nil, e50, e75, e100]
        simp
      rw [hsat, hnew]
      simp
  · simp [handle_first_response, ht]

/-- A done record makes the resolution handler a strict no-op. -/
theorem handle_res_quiet (env : Env) (now : ℚ) (t : Ticket) (su : SlaUpdate)
    (h : ResDone now t su) : handle_resolution env now t su = (su, []) := by
  rcases ht : t.resolution_time with _ | x
  · rcases h with hg | hflags
    · exact absurd ht hg
    · rw [handle_res_char env now t su ht]
      have d50 : (su.res_50_notified || decide (((50 : ℕ) : ℚ) ≤ pctRes t now)) =
          su.res_50_notified := by
        rcases le_or_lt ((50 : ℕ) : ℚ) (pctRes t now) with hle | hlt
        · have := hflags 50 (by simp) hle
          simp [SlaUpdate.resFlag] at this
          simp [this]
        · simp only [decide_eq_false (not_le_of_lt hlt), Bool.or_false, Bool.false_and]
      have d75 : (su.res_75_notified || decide (((75 : ℕ) : ℚ) ≤ pctRes t now)) =
          su.res_75_notified := by
        rcases le_or_lt ((75 : ℕ) : ℚ) (pctRes t now) with hle | hlt
        · have := hflags 75 (by simp) hle
          simp [SlaUpdate.resFlag] at this
          simp [this]
        · simp only [decide_eq_false (not_le_of_lt hlt), Bool.or_false, Bool.false_and]
      have d100 : (su.res_100_notified || decide (((100 : ℕ) : ℚ) ≤ pctRes t now)) =
          su.res_100_notified := by
        rcases le_or_lt ((100 : ℕ) : ℚ) (pctRes t now) with hle | hlt
        · have := hflags 100 (by simp) hle
          simp [SlaUpdate.resFlag] at this
          simp [this]
        · simp only [decide_eq_false (not_le_of_lt hlt), Bool.or_false, Bool.false_and]
      have e50 : (decide (((50 : ℕ) : ℚ) ≤ pctRes t now) && !su.resFlag 50) = false := by
        rcases le_or_lt ((50 : ℕ) : ℚ) (pctRes t now) with hle | hlt
        · simp [hflags 50 (by simp) hle]
        · simp only [decide_eq_false (not_le_of_lt hlt), Bool.or_false, Bool.false_and]
      have e75 : (decide (((75 : ℕ) : ℚ) ≤ pctRes t now) && !su.resFlag 75) = false := by
        rcases le_or_lt ((75 : ℕ) : ℚ) (pctRes t now) with hle | hlt
        · simp [hflags 75 (by simp) hle]
        · simp only [decide_eq_false (not_le_of_lt hlt), Bool.or_false, Bool.false_and]
      have e100 : (decide (((100 : ℕ) : ℚ) ≤ pctRes t now) && !su.resFlag 100) = false := by
        rcases le_or_lt ((100 : ℕ) : ℚ) (pctRes t now) with hle | hlt
        · simp [hflags 100 (by simp) hle]
        · simp only [decide_eq_false (not_le_of_lt hlt), Bool.or_false, Bool.false_and]
      have hsat : resSaturate (pctRes t now) su = su := by
        unfold resSaturate
        rw [d50, d75, d100]
      have hnew : resNewlyCrossed (pctRes t now) su = [] := by
        simp only [resNewlyCrossed, List.filter_cons, List.filter_nil, e50, e75, e100]
        simp
      rw [hsat, hnew]
      simp
  · simp [handle_resolution, ht]

/-- After the first-response handler runs, nothing is left to do. -/
theorem handle_fr_done (env : Env) (now : ℚ) (t : Ticket) (su : SlaUpdate) :
    FrDone now t (handle_first_response env now t su).1 := by
  rcases ht : t.first_response_time with _ | x
  · rw [handle_fr_char env now t su ht]
    right
    intro m hm hle
    rw [frSaturate_flag _ _ m hm]
    simp [decide_eq_true hle]
  · left
    simp [ht]

/-- After the resolution handler runs, nothing is left to do. -/
theorem handle_res_done (env : Env) (now : ℚ) (t : Ticket) (su : SlaUpdate) :
    ResDone now t (handle_resolution env now t su).1 := by
  rcases ht : t.resolution_time with _ | x
  · rw [handle_res_char env now t su ht]
    right
    intro m hm hle
    rw [resSaturate_flag _ _ m hm]
    simp [decide_eq_true hle]
  · left
    simp [ht]

/-!  The record evolution order and its preservation by every operation. -/

theorem recLe_refl (su : SlaUpdate) : RecLe su su :=
  ⟨rfl, fun _ => rfl, fun _ => rfl, id, id, id, id, id, id⟩

theorem recLe_trans {a b c : SlaUpdate} (h1 : RecLe a b) (h2 : RecLe b c) :
    RecLe a c := by
  obtain ⟨t1, f1, r1, a1, a2, a3, a4, a5, a6⟩ := h1
  obtain ⟨t2, f2, r2, b1, b2, b3, b4, b5, b6⟩ := h2
  refine ⟨t2.trans t1, ?_, ?_, fun h => b1 (a1 h), fun h => b2 (a2 h),
    fun h => b3 (a3 h), fun h => b4 (a4 h), fun h => b5 (a5 h), fun h => b6 (a6 h)⟩
  · intro h
    have hb := f1 h
    rw [f2 (by rw [hb]; exact h), hb]
  · intro h
    have hb := r1 h
    rw [r2 (by rw [hb]; exact h), hb]

theorem recLe_frSaturate (pct : ℚ) (su : SlaUpdate) : RecLe su (frSaturate pct su) := by
  refine ⟨rfl, fun _ => rfl, fun _ => rfl, ?_, ?_, ?_, id, id, id⟩ <;>
    · intro h
      simp [frSaturate, h]

theorem recLe_resSaturate (pct : ℚ) (su : SlaUpdate) : RecLe su (resSaturate pct su) := by
  refine ⟨rfl, fun _ => rfl, fun _ => rfl, id, id, id, ?_, ?_, ?_⟩ <;>
    · intro h
      simp [resSaturate, h]

theorem recLe_handle_fr (env : Env) (now : ℚ) (t : Ticket) (su : SlaUpdate) :
    RecLe su (handle_first_response env now t su).1 := by
  rcases ht : t.first_response_time with _ | x
  · rw [handle_fr_char env now t su ht]
    exact recLe_frSaturate _ su
  · simp only [handle_first_response, ht, Option.isSome_some, if_true]
    exact recLe_refl su

theorem recLe_handle_res (env : Env) (now : ℚ) (t : Ticket) (su : SlaUpdate) :
    RecLe su (handle_resolution env now t su).1 := by
  rcases ht : t.resolution_time with _ | x
  · rw [handle_res_char env now t su ht]
    exact recLe_resSaturate _ su
  · simp only [handle_resolution, ht, Option.isSome_some, if_true]
    exact recLe_refl su

theorem recLe_record_fr (now : ℚ) (t : Ticket) (su : SlaUpdate) :
    RecLe su (record_first_response_time now t su) := by
  unfold record_first_response_time
  split_ifs with h
  · exact ⟨rfl, fun hne => absurd h.2 hne, fun _ => rfl, id, id, id, id, id, id⟩
  · exact recLe_refl su

theorem recLe_record_res (t : Ticket) (su : SlaUpdate) :
    RecLe su (record_resolution_time t su) := by
  unfold record_resolution_time
  split_ifs with h
  · exact ⟨rfl, fun _ => rfl, fun hne => absurd h.2 hne, id, id, id, id, id, id⟩
  · exact recLe_refl su

/-- A true first-response flag survives any `RecLe` evolution. -/
theorem frFlag_mono {su su' : SlaUpdate} (h : RecLe su su') :
    ∀ m ∈ ([50, 75, 100] : List ℕ), su.frFlag m = true → su'.frFlag m = true := by
  intro m hm
  fin_cases hm
  · exact h.2.2.2.1
  · exact h.2.2.2.2.1
  · exact h.2.2.2.2.2.1

/-- A true resolution flag survives any `RecLe` evolution. -/
theorem resFlag_mono {su su' : SlaUpdate} (h : RecLe su su') :
    ∀ m ∈ ([50, 75, 100] : List ℕ), su.resFlag m = true → su'.resFlag m = true := by
  intro m hm
  fin_cases hm
  · exact h.2.2.2.2.2.2.1
  · exact h.2.2.2.2.2.2.2.1
  · exact h.2.2.2.2.2.2.2.2

/-- Doneness survives any `RecLe` evolution of the record. -/
theorem frDone_mono {now : ℚ} {t : Ticket} {su su' : SlaUpdate}
    (hd : FrDone now t su) (h : RecLe su su') : FrDone now t su' := by
  rcases hd with hg | hflags
  · exact Or.inl hg
  · exact Or.inr fun m hm hle => frFlag_mono h m hm (hflags m hm hle)

/-- Doneness survives any `RecLe` evolution of the record. -/
theorem resDone_mono {now : ℚ} {t : Ticket} {su su' : SlaUpdate}
    (hd : ResDone now t su) (h : RecLe su su') : ResDone now t su' := by
  rcases hd with hg | hflags
  · exact Or.inl hg
  · exact Or.inr fun m hm hle => resFlag_mono h m hm (hflags m hm hle)

/-!  Lemmas about the tracking store. -/

theorem findRecord_ticket_id {S : List SlaUpdate} {n : String} {su : SlaUpdate}
    (h : findRecord S n = some su) : su.ticket_id = n := by
  induction S with
  | nil => simp [findRecord] at h
  | cons x xs ih =>
      by_cases hx : x.ticket_id = n
      · simp only [findRecord, if_pos hx] at h
        cases h
        exact hx
      · simp only [findRecord, if_neg hx] at h
        exact ih h

theorem findRecord_save (S : List SlaUpdate) (r : SlaUpdate) (n : String) :
    findRecord (saveRecord S r) n =
      if n = r.ticket_id then some r else findRecord S n := by
  induction S with
  | nil =>
      by_cases h : r.ticket_id = n
      · simp [saveRecord, findRecord, h]
      · simp [saveRecord, findRecord, h, Ne.symm h]
  | cons x xs ih =>
      simp only [saveRecord]
      by_cases hx : x.ticket_id = r.ticket_id
      · rw [if_pos hx]
        by_cases hn : r.ticket_id = n
        · simp [findRecord, hn]
        · have hxn : ¬ x.ticket_id = n := by rw [hx]; exact hn
          simp [findRecord, hn, Ne.symm hn, hxn]
      · rw [if_neg hx]
        by_cases hxn : x.ticket_id = n
        · have hn : ¬ n = r.ticket_id := fun he => hx (hxn.trans he)
          simp [findRecord, hxn, hn]
        · simp [findRecord, hxn, ih]

theorem saveRecord_self {S : List SlaUpdate} {n : String} {su : SlaUpdate}
    (h : findRecord S n = some su) : saveRecord S su = S := by
  induction S with
  | nil => simp [findRecord] at h
  | cons x xs ih =>
      by_cases hx : x.ticket_id = n
      · simp only [findRecord, if_pos hx] at h
        cases h
        simp [saveRecord]
      · simp only [findRecord, if_neg hx] at h
        have hsu : su.ticket_id = n := findRecord_ticket_id h
        have : ¬ x.ticket_id = su.ticket_id := by rw [hsu]; exact hx
        simp [saveRecord, this, ih h]

theorem findRecord_append_some {S : List SlaUpdate} {n : String} {su : SlaUpdate}
    (r : SlaUpdate) (h : findRecord S n = some su) :
    findRecord (S ++ [r]) n = some su := by
  induction S with
  | nil => simp [findRecord] at h
  | cons x xs ih =>
      by_cases hx : x.ticket_id = n
      · simp only [findRecord, if_pos hx] at h
        simp [findRecord, hx, h]
      · simp only [findRecord, if_neg hx] at h
        simp [findRecord, hx, ih h]

theorem findRecord_append_none {S : List SlaUpdate} {n : String}
    (r : SlaUpdate) (h : findRecord S n = none) :
    findRecord (S ++ [r]) n = if r.ticket_id = n then some r else none := by
  induction S with
  | nil => simp [findRecord]
  | cons x xs ih =>
      by_cases hx : x.ticket_id = n
      · simp [findRecord, hx] at h
      · simp only [findRecord, if_neg hx] at h
        simp [findRecord, hx, ih h]

theorem goc_fst_ticket_id (S : List SlaUpdate) (tid : String) :
    (get_or_create_sla_update S tid).1.ticket_id = tid := by
  unfold get_or_create_sla_update
  cases hf : findRecord S tid with
  | none => simp [newRecord]
  | some r => simpa using findRecord_ticket_id hf

theorem goc_found (S : List SlaUpdate) (tid : String) :
    findRecord (get_or_create_sla_update S tid).2 tid =
      some (get_or_create_sla_update S tid).1 := by
  unfold get_or_create_sla_update
  cases hf : findRecord S tid with
  | none => simp [findRecord_append_none _ hf, newRecord]
  | some r => simpa using hf

theorem goc_preserves {S : List SlaUpdate} {n : String} {su : SlaUpdate}
    (tid : String) (h : findRecord S n = some su) :
    findRecord (get_or_create_sla_update S tid).2 n = some su := by
  unfold get_or_create_sla_update
  cases hf : findRecord S tid with
  | none => simpa using findRecord_append_some _ h
  | some r => simpa using h

theorem goc_fst_of_found {S : List SlaUpdate} {tid : String} {su : SlaUpdate}
    (h : findRecord S tid = some su) :
    get_or_create_sla_update S tid = (su, S) := by
  unfold get_or_create_sla_update
  rw [h]

theorem storeLe_refl (S : List SlaUpdate) : StoreLe S S :=
  fun _ su h => ⟨su, h, recLe_refl su⟩

theorem storeLe_trans {S1 S2 S3 : List SlaUpdate} (h1 : StoreLe S1 S2)
    (h2 : StoreLe S2 S3) : StoreLe S1 S3 := by
  intro n su h
  obtain ⟨su2, hf2, hle2⟩ := h1 n su h
  obtain ⟨su3, hf3, hle3⟩ := h2 n su2 hf2
  exact ⟨su3, hf3, recLe_trans hle2 hle3⟩

/-- Loading (or creating) a record and saving back an `RecLe`-evolved
version of it only evolves the store upward. -/
theorem storeLe_save_goc (S : List SlaUpdate) (tid : String)
    (f : SlaUpdate → SlaUpdate) (hf : ∀ su, RecLe su (f su)) :
    StoreLe S (saveRecord (get_or_create_sla_update S tid).2
      (f (get_or_create_sla_update S tid).1)) := by
  intro n su h
  rw [findRecord_save]
  have htid : (f (get_or_create_sla_update S tid).1).ticket_id = tid := by
    rw [(hf _).1, goc_fst_ticket_id]
  by_cases hn : n = (f (get_or_create_sla_update S tid).1).ticket_id
  · have hntid : n = tid := by rw [hn, htid]
    subst hntid
    rw [goc_fst_of_found h] at hn ⊢
    exact ⟨f su, by simp [hn], hf su⟩
  · rw [if_neg hn]
    exact ⟨su, goc_preserves tid h, recLe_refl su⟩

/-!  Phase-level lemmas for the orchestrator. -/

theorem statePhaseStep_eq (now : ℚ) (S : List SlaUpdate) (t : Ticket) :
    statePhaseStep now S t =
      saveRecord (get_or_create_sla_update S t.name).2
        (record_resolution_time t
          (record_first_response_time now t (get_or_create_sla_update S t.name).1)) := rfl

theorem frPhaseStep_eq (env : Env) (now : ℚ) (S : List SlaUpdate) (es : List Email)
    (t : Ticket) :
    frPhaseStep env now (S, es) t =
      (saveRecord (get_or_create_sla_update S t.name).2
        ((handle_first_response env now t (get_or_create_sla_update S t.name).1).1),
       es ++ (handle_first_response env now t (get_or_create_sla_update S t.name).1).2) := rfl

theorem resPhaseStep_eq (env : Env) (now : ℚ) (S : List SlaUpdate) (es : List Email)
    (t : Ticket) :
    resPhaseStep env now (S, es) t =
      (saveRecord (get_or_create_sla_update S t.name).2
        ((handle_resolution env now t (get_or_create_sla_update S t.name).1).1),
       es ++ (handle_resolution env now t (get_or_create_sla_update S t.name).1).2) := rfl

theorem storeLe_statePhase (now : ℚ) :
    ∀ (L : List Ticket) (S : List SlaUpdate), StoreLe S (runStatePhase now L S) := by
  intro L
  induction L with
  | nil => intro S; exact storeLe_refl S
  | cons t L ih =>
      intro S
      have h1 : StoreLe S (statePhaseStep now S t) :=
        storeLe_save_goc S t.name
          (fun su => record_resolution_time t (record_first_response_time now t su))
          (fun su => recLe_trans (recLe_record_fr now t su)
            (recLe_record_res t (record_first_response_time now t su)))
      exact storeLe_trans h1 (ih (statePhaseStep now S t))

theorem storeLe_frPhase_aux (env : Env) (now : ℚ) :
    ∀ (L : List Ticket) (S : List SlaUpdate) (es : List Email),
      StoreLe S ((L.foldl (frPhaseStep env now) (S, es)).1) := by
  intro L
  induction L with
  | nil => intro S es; exact storeLe_refl S
  | cons t L ih =>
      intro S es
      rw [List.foldl_cons, frPhaseStep_eq]
      have h1 : StoreLe S (saveRecord (get_or_create_sla_update S t.name).2
          ((handle_first_response env now t (get_or_create_sla_update S t.name).1).1)) :=
        storeLe_save_goc S t.name (fun su => (handle_first_response env now t su).1)
          (fun su => recLe_handle_fr env now t su)
      exact storeLe_trans h1 (ih _ _)

theorem storeLe_resPhase_aux (env : Env) (now : ℚ) :
    ∀ (L : List Ticket) (S : List SlaUpdate) (es : List Email),
      StoreLe S ((L.foldl (resPhaseStep env now) (S, es)).1) := by
  intro L
  induction L with
  | nil => intro S es; exact storeLe_refl S
  | cons t L ih =>
      intro S es
      rw [List.foldl_cons, resPhaseStep_eq]
      have h1 : StoreLe S (saveRecord (get_or_create_sla_update S t.name).2
          ((handle_resolution env now t (get_or_create_sla_update S t.name).1).1)) :=
        storeLe_save_goc S t.name (fun su => (handle_resolution env now t su).1)
          (fun su => recLe_handle_res env now t su)
      exact storeLe_trans h1 (ih _ _)

theorem frDoneIn_mono {now : ℚ} {t : Ticket} {S S' : List SlaUpdate}
    (h : FrDoneIn now t S) (hle : StoreLe S S') : FrDoneIn now t S' := by
  obtain ⟨su, hf, hd⟩ := h
  obtain ⟨su', hf', hle'⟩ := hle t.name su hf
  exact ⟨su', hf', frDone_mono hd hle'⟩

theorem resDoneIn_mono {now : ℚ} {t : Ticket} {S S' : List SlaUpdate}
    (h : ResDoneIn now t S) (hle : StoreLe S S') : ResDoneIn now t S' := by
  obtain ⟨su, hf, hd⟩ := h
  obtain ⟨su', hf', hle'⟩ := hle t.name su hf
  exact ⟨su', hf', resDone_mono hd hle'⟩

/-- After the first-response pass, every processed ticket is done. -/
theorem frPhase_done (env : Env) (now : ℚ) :
    ∀ (L : List Ticket) (S : List SlaUpdate) (es : List Email), ∀ t ∈ L,
      FrDoneIn now t ((L.foldl (frPhaseStep env now) (S, es)).1) := by
  intro L
  induction L with
  | nil =>
      intro S es t ht
      simp at ht
  | cons t0 L ih =>
      intro S es t ht
      rw [List.foldl_cons]
      rcases List.mem_cons.mp ht with rfl | htL
      · have htid : ((handle_first_response env now t
            (get_or_create_sla_update S t.name).1).1).ticket_id = t.name := by
          rw [(recLe_handle_fr env now t _).1, goc_fst_ticket_id]
        have hfind : findRecord ((frPhaseStep env now (S, es) t).1) t.name =
            some ((handle_first_response env now t
              (get_or_create_sla_update S t.name).1).1) := by
          rw [frPhaseStep_eq]
          show findRecord (saveRecord _ _) _ = _
          rw [findRecord_save, if_pos htid.symm]
        have hdone : FrDoneIn now t ((frPhaseStep env now (S, es) t).1) :=
          ⟨_, hfind, handle_fr_done env now t _⟩
        exact frDoneIn_mono hdone (storeLe_frPhase_aux env now L _ _)
      · exact ih (frPhaseStep env now (S, es) t0).1 (frPhaseStep env now (S, es) t0).2 t htL

/-- After the resolution pass, every processed ticket is done. -/
theorem resPhase_done (env : Env) (now : ℚ) :
    ∀ (L : List Ticket) (S : List SlaUpdate) (es : List Email), ∀ t ∈ L,
      ResDoneIn now t ((L.foldl (resPhaseStep env now) (S, es)).1) := by
  intro L
  induction L with
  | nil =>
      intro S es t ht
      simp at ht
  | cons t0 L ih =>
      intro S es t ht
      rw [List.foldl_cons]
      rcases List.mem_cons.mp ht with rfl | htL
      · have htid : ((handle_resolution env now t
            (get_or_create_sla_update S t.name).1).1).ticket_id = t.name := by
          rw [(recLe_handle_res env now t _).1, goc_fst_ticket_id]
        have hfind : findRecord ((resPhaseStep env now (S, es) t).1) t.name =
            some ((handle_resolution env now t
              (get_or_create_sla_update S t.name).1).1) := by
          rw [resPhaseStep_eq]
          show findRecord (saveRecord _ _) _ = _
          rw [findRecord_save, if_pos htid.symm]
        have hdone : ResDoneIn now t ((resPhaseStep env now (S, es) t).1) :=
          ⟨_, hfind, handle_res_done env now t _⟩
        exact resDoneIn_mono hdone (storeLe_resPhase_aux env now L _ _)
      · exact ih (resPhaseStep env now (S, es) t0).1 (resPhaseStep env now (S, es) t0).2 t htL

/-- A pass over tickets that are all done is a strict no-op. -/
theorem frPhase_quiet (env : Env) (now : ℚ) :
    ∀ (L : List Ticket) (S : List SlaUpdate) (es : List Email),
      (∀ t ∈ L, FrDoneIn now t S) →
      L.foldl (frPhaseStep env now) (S, es) = (S, es) := by
  intro L
  induction L with
  | nil => intro S es _; rfl
  | cons t0 L ih =>
      intro S es h
      obtain ⟨su, hf, hd⟩ := h t0 (List.mem_cons_self t0 L)
      have hstep : frPhaseStep env now (S, es) t0 = (S, es) := by
        simp only [frPhaseStep_eq, goc_fst_of_found hf,
          handle_fr_quiet env now t0 su hd, saveRecord_self hf, List.append_nil]
      rw [List.foldl_cons, hstep]
      exact ih S es (fun t ht => h t (List.mem_cons_of_mem t0 ht))

/-- A pass over tickets that are all done is a strict no-op. -/
theorem resPhase_quiet (env : Env) (now : ℚ) :
    ∀ (L : List Ticket) (S : List SlaUpdate) (es : List Email),
      (∀ t ∈ L, ResDoneIn now t S) →
      L.foldl (resPhaseStep env now) (S, es) = (S, es) := by
  intro L
  induction L with
  | nil => intro S es _; rfl
  | cons t0 L ih =>
      intro S es h
      obtain ⟨su, hf, hd⟩ := h t0 (List.mem_cons_self t0 L)
      have hstep : resPhaseStep env now (S, es) t0 = (S, es) := by
        simp only [resPhaseStep_eq, goc_fst_of_found hf,
          handle_res_quiet env now t0 su hd, saveRecord_self hf, List.append_nil]
      rw [List.foldl_cons, hstep]
      exact ih S es (fun t ht => h t (List.mem_cons_of_mem t0 ht))

/-!  Lemmas about the lifecycle closer and ticket fetching. -/

theorem close_ticket_not_resolved {now : ℚ} {t : Ticket}
    (h : ¬ t.status = Status.Resolved) : close_ticket now t = t := by
  simp [close_ticket, h]

theorem close_ticket_status (now : ℚ) (t : Ticket) :
    (close_ticket now t).status = t.status ∨
      ((close_ticket now t).status = Status.Closed ∧ t.status = Status.Resolved) := by
  by_cases h : t.status = Status.Resolved
  · cases hrd : t.resolution_date with
    | none =>
        left
        simp [close_ticket, h, hrd]
    | some d =>
        by_cases hlt : d + 172800 < now
        · right
          refine ⟨?_, h⟩
          simp [close_ticket, h, hrd, hlt]
        · left
          simp [close_ticket, h, hrd, hlt]
  · rw [close_ticket_not_resolved h]
    left
    rfl

/-- The closer does not change which tickets a non-Resolved, non-Closed
status fetch returns. -/
theorem close_filter (now : ℚ) (T : List Ticket) (ss : List Status)
    (hres : ss.contains Status.Resolved = false)
    (hclo : ss.contains Status.Closed = false) :
    (close_resolved_tickets now T).filter (fun t => ss.contains t.status) =
      T.filter (fun t => ss.contains t.status) := by
  induction T with
  | nil => rfl
  | cons t T ih =>
      simp only [close_resolved_tickets, List.map_cons, List.filter_cons] at ih ⊢
      by_cases h : t.status = Status.Resolved
      · have h1 : ss.contains (close_ticket now t).status = false := by
          rcases close_ticket_status now t with he | ⟨hc, _⟩
          · rw [he, h]; exact hres
          · rw [hc]; exact hclo
        have h2 : ss.contains t.status = false := by rw [h]; exact hres
        simp only [h1, h2, Bool.false_eq_true, if_false]
        exact ih
      · rw [close_ticket_not_resolved h]
        by_cases hc : ss.contains t.status
        · simp only [hc, if_true]
          rw [ih]
        · simp only [hc, Bool.false_eq_true, if_false]
          exact ih

/-- After one full cycle, every ticket the milestone passes saw is done in
the resulting store. -/
theorem run_cycle_done (env : Env) (now : ℚ) (w : World) :
    (∀ t ∈ get_tickets_by_status w [Status.Open],
      FrDoneIn now t (run env now w).1.store) ∧
    (∀ t ∈ get_tickets_by_status w [Status.Open, Status.InProgress],
      ResDoneIn now t (run env now w).1.store) := by
  constructor
  · intro t ht
    have h1 : FrDoneIn now t
        ((get_tickets_by_status w [Status.Open]).foldl (frPhaseStep env now)
          (runStatePhase now (get_tickets_by_status w
            [Status.Open, Status.InProgress, Status.Resolved, Status.Closed]) w.store,
            [])).1 :=
      frPhase_done env now _ _ _ t ht
    exact frDoneIn_mono h1 (storeLe_resPhase_aux env now
      (get_tickets_by_status w [Status.Open, Status.InProgress]) _ [])
  · intro t ht
    exact resPhase_done env now _ _ _ t ht

/-!  Flag-transition bookkeeping for the at-most-once property. -/

theorem frTransitions_sub {su su' : SlaUpdate} {m : ℕ}
    (h : m ∈ frTransitions su su') : m ∈ ([50, 75, 100] : List ℕ) :=
  (List.mem_filter.mp h).1

theorem frTransitions_flag {su su' : SlaUpdate} {m : ℕ}
    (h : m ∈ frTransitions su su') :
    su.frFlag m = false ∧ su'.frFlag m = true := by
  have := (List.mem_filter.mp h).2
  simpa using this

theorem frTransitions_not_mem {su su' : SlaUpdate} {m : ℕ}
    (h : su.frFlag m = true) : m ∉ frTransitions su su' := by
  intro hmem
  have := (frTransitions_flag hmem).1
  rw [h] at this
  cases this

theorem resTransitions_sub {su su' : SlaUpdate} {m : ℕ}
    (h : m ∈ resTransitions su su') : m ∈ ([50, 75, 100] : List ℕ) :=
  (List.mem_filter.mp h).1

theorem resTransitions_flag {su su' : SlaUpdate} {m : ℕ}
    (h : m ∈ resTransitions su su') :
    su.resFlag m = false ∧ su'.resFlag m = true := by
  have := (List.mem_filter.mp h).2
  simpa using this

theorem resTransitions_not_mem {su su' : SlaUpdate} {m : ℕ}
    (h : su.resFlag m = true) : m ∉ resTransitions su su' := by
  intro hmem
  have := (resTransitions_flag hmem).1
  rw [h] at this
  cases this

theorem evalSeqFr_mem_base :
    ∀ (cs : List (Env × ℚ)) (t : Ticket) (su : SlaUpdate) (m : ℕ),
      m ∈ (evalSeqFr cs t su).2 → m ∈ ([50, 75, 100] : List ℕ) := by
  intro cs
  induction cs with
  | nil =>
      intro t su m h
      simp [evalSeqFr] at h
  | cons c cs ih =>
      intro t su m h
      simp only [evalSeqFr, List.mem_append] at h
      rcases h with h | h
      · exact frTransitions_sub h
      · exact ih t _ m h

theorem evalSeqRes_mem_base :
    ∀ (cs : List (Env × ℚ)) (t : Ticket) (su : SlaUpdate) (m : ℕ),
      m ∈ (evalSeqRes cs t su).2 → m ∈ ([50, 75, 100] : List ℕ) := by
  intro cs
  induction cs with
  | nil =>
      intro t su m h
      simp [evalSeqRes] at h
  | cons c cs ih =>
      intro t su m h
      simp only [evalSeqRes, List.mem_append] at h
      rcases h with h | h
      · exact resTransitions_sub h
      · exact ih t _ m h

theorem evalSeqFr_not_mem :
    ∀ (cs : List (Env × ℚ)) (t : Ticket) (su : SlaUpdate) (m : ℕ),
      m ∈ ([50, 75, 100] : List ℕ) → su.frFlag m = true →
      m ∉ (evalSeqFr cs t su).2 := by
  intro cs
  induction cs with
  | nil =>
      intro t su m hm h
      simp [evalSeqFr]
  | cons c cs ih =>
      intro t su m hm h
      simp only [evalSeqFr, List.mem_append]
      rintro (hmem | hmem)
      · exact frTransitions_not_mem h hmem
      · exact ih t _ m hm (frFlag_mono (recLe_handle_fr c.1 c.2 t su) m hm h) hmem

theorem evalSeqRes_not_mem :
    ∀ (cs : List (Env × ℚ)) (t : Ticket) (su : SlaUpdate) (m : ℕ),
      m ∈ ([50, 75, 100] : List ℕ) → su.resFlag m = true →
      m ∉ (evalSeqRes cs t su).2 := by
  intro cs
  induction cs with
  | nil =>
      intro t su m hm h
      simp [evalSeqRes]
  | cons c cs ih =>
      intro t su m hm h
      simp only [evalSeqRes, List.mem_append]
      rintro (hmem | hmem)
      · exact resTransitions_not_mem h hmem
      · exact ih t _ m hm (resFlag_mono (recLe_handle_res c.1 c.2 t su) m hm h) hmem

theorem evalSeqFr_count (cs : List (Env × ℚ)) (t : Ticket) (su : SlaUpdate) (m : ℕ) :
    List.count m (evalSeqFr cs t su).2 ≤ 1 := by
  by_cases hm : m ∈ ([50, 75, 100] : List ℕ)
  · induction cs generalizing su with
    | nil => simp [evalSeqFr]
    | cons c cs ih =>
        simp only [evalSeqFr, List.count_append]
        cases hsu : su.frFlag m with
        | true =>
            have h1 : m ∉ frTransitions su (handle_first_response c.1 c.2 t su).1 :=
              frTransitions_not_mem hsu
            have h2 : m ∉ (evalSeqFr cs t (handle_first_response c.1 c.2 t su).1).2 :=
              evalSeqFr_not_mem cs t _ m hm
                (frFlag_mono (recLe_handle_fr c.1 c.2 t su) m hm hsu)
            simp [List.count_eq_zero.mpr h1, List.count_eq_zero.mpr h2]
        | false =>
            by_cases hmem : m ∈ frTransitions su (handle_first_response c.1 c.2 t su).1
            · have hflag : (handle_first_response c.1 c.2 t su).1.frFlag m = true :=
                (frTransitions_flag hmem).2
              have h2 : m ∉ (evalSeqFr cs t (handle_first_response c.1 c.2 t su).1).2 :=
                evalSeqFr_not_mem cs t _ m hm hflag
              have hnod : (frTransitions su (handle_first_response c.1 c.2 t su).1).Nodup :=
                List.Nodup.filter _ (by decide)
              have hc1 := List.nodup_iff_count_le_one.mp hnod m
              simpa [List.count_eq_zero.mpr h2] using hc1
            · have h1 : List.count m (frTransitions su
                  (handle_first_response c.1 c.2 t su).1) = 0 :=
                List.count_eq_zero.mpr hmem
              simpa [h1] using ih _
  · have hnm : m ∉ (evalSeqFr cs t su).2 :=
      fun h => hm (evalSeqFr_mem_base cs t su m h)
    simp [List.count_eq_zero.mpr hnm]

theorem evalSeqRes_count (cs : List (Env × ℚ)) (t : Ticket) (su : SlaUpdate) (m : ℕ) :
    List.count m (evalSeqRes cs t su).2 ≤ 1 := by
  by_cases hm : m ∈ ([50, 75, 100] : List ℕ)
  · induction cs generalizing su with
    | nil => simp [evalSeqRes]
    | cons c cs ih =>
        simp only [evalSeqRes, List.count_append]
        cases hsu : su.resFlag m with
        | true =>
            have h1 : m ∉ resTransitions su (handle_resolution c.1 c.2 t su).1 :=
              resTransitions_not_mem hsu
            have h2 : m ∉ (evalSeqRes cs t (handle_resolution c.1 c.2 t su).1).2 :=
              evalSeqRes_not_mem cs t _ m hm
                (resFlag_mono (recLe_handle_res c.1 c.2 t su) m hm hsu)
            simp [List.count_eq_zero.mpr h1, List.count_eq_zero.mpr h2]
        | false =>
            by_cases hmem : m ∈ resTransitions su (handle_resolution c.1 c.2 t su).1
            · have hflag : (handle_resolution c.1 c.2 t su).1.resFlag m = true :=
                (resTransitions_flag hmem).2
              have h2 : m ∉ (evalSeqRes cs t (handle_resolution c.1 c.2 t su).1).2 :=
                evalSeqRes_not_mem cs t _ m hm hflag
              have hnod : (resTransitions su (handle_resolution c.1 c.2 t su).1).Nodup :=
                List.Nodup.filter _ (by decide)
              have hc1 := List.nodup_iff_count_le_one.mp hnod m
              simpa [List.count_eq_zero.mpr h2] using hc1
            · have h1 : List.count m (resTransitions su
                  (handle_resolution c.1 c.2 t su).1) = 0 :=
                List.count_eq_zero.mpr hmem
              simpa [h1] using ih _
  · have hnm : m ∉ (evalSeqRes cs t su).2 :=
      fun h => hm (evalSeqRes_mem_base cs t su m h)
    simp [List.count_eq_zero.mpr hnm]

/-- The flags that flip during saturation are exactly the newly crossed
milestones. -/
theorem frTransitions_saturate (pct : ℚ) (su : SlaUpdate) :
    frTransitions su (frSaturate pct su) = frNewlyCrossed pct su := by
  unfold frTransitions frNewlyCrossed
  apply List.filter_congr
  intro m hm
  rw [frSaturate_flag pct su m hm]
  cases h : su.frFlag m <;> cases hd : decide ((m : ℚ) ≤ pct) <;> simp [h, hd]

/-- The flags that flip during saturation are exactly the newly crossed
milestones. -/
theorem resTransitions_saturate (pct : ℚ) (su : SlaUpdate) :
    resTransitions su (resSaturate pct su) = resNewlyCrossed pct su := by
  unfold resTransitions resNewlyCrossed
  apply List.filter_congr
  intro m hm
  rw [resSaturate_flag pct su m hm]
  cases h : su.resFlag m <;> cases hd : decide ((m : ℚ) ≤ pct) <;> simp [h, hd]

theorem frTransitions_self (su : SlaUpdate) : frTransitions su su = [] := by
  simp [frTransitions]

theorem resTransitions_self (su : SlaUpdate) : resTransitions su su = [] := by
  simp [resTransitions]

/-- The handler's outbound mail comes exactly from the milestones whose
flag flips in that evaluation. -/
theorem handle_fr_emails (env : Env) (now : ℚ) (t : Ticket) (su : SlaUpdate) :
    (handle_first_response env now t su).2 =
      (frTransitions su (handle_first_response env now t su).1).flatMap
        (send_email env t "first response") := by
  rcases ht : t.first_response_time with _ | x
  · simp only [handle_fr_char env now t su ht, frTransitions_saturate]
  · simp only [handle_first_response, ht, Option.isSome_some, if_true,
      frTransitions_self, List.flatMap_nil]

/-- The handler's outbound mail comes exactly from the milestones whose
flag flips in that evaluation. -/
theorem handle_res_emails (env : Env) (now : ℚ) (t : Ticket) (su : SlaUpdate) :
    (handle_resolution env now t su).2 =
      (resTransitions su (handle_resolution env now t su).1).flatMap
        (send_email env t "resolution") := by
  rcases ht : t.resolution_time with _ | x
  · simp only [handle_res_char env now t su ht, resTransitions_saturate]
  · simp only [handle_resolution, ht, Option.isSome_some, if_true,
      resTransitions_self, List.flatMap_nil]

theorem flatMap_nil_of {α β : Type} (f : α → List β) (l : List α)
    (h : ∀ a, f a = []) : l.flatMap f = [] := by
  induction l with
  | nil => rfl
  | cons a l ih => simp [h a, ih]

/-- A cycle over a world whose milestone work is already done sends no
mail. -/
theorem run_emails_of_done (env : Env) (now : ℚ) (w : World)
    (hF : ∀ t ∈ get_tickets_by_status w [Status.Open], FrDoneIn now t w.store)
    (hR : ∀ t ∈ get_tickets_by_status w [Status.Open, Status.InProgress],
      ResDoneIn now t w.store) :
    (run env now w).2 = [] := by
  have hle1 : StoreLe w.store (runStatePhase now (get_tickets_by_status w
      [Status.Open, Status.InProgress, Status.Resolved, Status.Closed]) w.store) :=
    storeLe_statePhase now _ _
  have hF1 : ∀ t ∈ get_tickets_by_status w [Status.Open],
      FrDoneIn now t (runStatePhase now (get_tickets_by_status w
        [Status.Open, Status.InProgress, Status.Resolved, Status.Closed]) w.store) :=
    fun t ht => frDoneIn_mono (hF t ht) hle1
  have hR1 : ∀ t ∈ get_tickets_by_status w [Status.Open, Status.InProgress],
      ResDoneIn now t (runStatePhase now (get_tickets_by_status w
        [Status.Open, Status.InProgress, Status.Resolved, Status.Closed]) w.store) :=
    fun t ht => resDoneIn_mono (hR t ht) hle1
  have hfr := frPhase_quiet env now (get_tickets_by_status w [Status.Open])
    (runStatePhase now (get_tickets_by_status w
      [Status.Open, Status.InProgress, Status.Resolved, Status.Closed]) w.store) [] hF1
  have hres2 := resPhase_quiet env now
    (get_tickets_by_status w [Status.Open, Status.InProgress])
    (runStatePhase now (get_tickets_by_status w
      [Status.Open, Status.InProgress, Status.Resolved, Status.Closed]) w.store) [] hR1
  show ((get_tickets_by_status w [Status.Open]).foldl (frPhaseStep env now)
      (runStatePhase now (get_tickets_by_status w
        [Status.Open, Status.InProgress, Status.Resolved, Status.Closed]) w.store,
        [])).2 ++
    ((get_tickets_by_status w [Status.Open, Status.InProgress]).foldl
      (resPhaseStep env now)
      (((get_tickets_by_status w [Status.Open]).foldl (frPhaseStep env now)
        (runStatePhase now (get_tickets_by_status w
          [Status.Open, Status.InProgress, Status.Resolved, Status.Closed]) w.store,
          [])).1, [])).2 = []
  rw [hfr]
  dsimp only
  rw [hres2]
  rfl

/-- Concrete evaluation of the percentage on a 0 → 100 window. -/
theorem pct_0_100 (now : ℚ) (h : now ≤ 100) :
    get_percentage (some 0) (some 100) now = now := by
  simp only [get_percentage]
  rw [if_neg (by norm_num : ¬ ((100 : ℚ) - 0 ≤ 0))]
  have hv : (now - 0) / ((100 : ℚ) - 0) * 100 = now := by
    rw [sub_zero, sub_zero]
    exact div_mul_cancel₀ now (by norm_num)
  rw [hv]
  exact min_eq_left h

/-!  The claims. -/

/-- C3: `get_percentage` returns 0 when `start` or `due` is absent; 100
when `due ≤ start`; otherwise `min ((now - start) / (due - start) * 100)
100`, with no lower clamp, so a `now` before `start` yields a negative
value. -/
theorem claim_C3 :
    (∀ due now, get_percentage none due now = 0) ∧
    (∀ start now, get_percentage start none now = 0) ∧
    (∀ s d now, d ≤ s → get_percentage (some s) (some d) now = 100) ∧
    (∀ s d now, s < d →
      get_percentage (some s) (some d) now = min ((now - s) / (d - s) * 100) 100) ∧
    (∀ s d now, s < d → now < s → get_percentage (some s) (some d) now < 0) := by
  refine ⟨?_, ?_, ?_, ?_, ?_⟩
  · intro due now
    cases due <;> rfl
  · intro start now
    cases start <;> rfl
  · intro s d now h
    simp only [get_percentage]
    rw [if_pos (by linarith : d - s ≤ 0)]
  · intro s d now h
    simp only [get_percentage]
    rw [if_neg (not_le.mpr (by linarith : (0 : ℚ) < d - s))]
  · intro s d now h hn
    simp only [get_percentage]
    rw [if_neg (not_le.mpr (by linarith : (0 : ℚ) < d - s))]
    have hx : (now - s) / (d - s) * 100 < 0 := by
      apply mul_neg_of_neg_of_pos
      · exact div_neg_of_neg_of_pos (by linarith) (by linarith)
      · norm_num
    exact lt_of_le_of_lt (min_le_left _ _) hx

/-- Witness for C3: a degenerate window yields 100; an evaluation before
the window start yields a negative percentage. -/
theorem claim_C3_witness :
    get_percentage (some 5) (some 5) 9 = 100 ∧
    get_percentage (some 0) (some 100) (-10) < 0 :=
  ⟨claim_C3.2.2.1 5 5 9 le_rfl,
   claim_C3.2.2.2.2 0 100 (-10) (by norm_num) (by norm_num)⟩

/-- C4: when the ticket's own outcome timestamp is set, the corresponding
handler sends nothing and leaves the record unchanged, regardless of the
elapsed percentage. -/
theorem claim_C4 :
    ∀ (env : Env) (now : ℚ) (t : Ticket) (su : SlaUpdate),
      (∀ x, t.first_response_time = some x →
        handle_first_response env now t su = (su, [])) ∧
      (∀ y, t.resolution_time = some y →
        handle_resolution env now t su = (su, [])) := by
  intro env now t su
  constructor
  · intro x hx
    simp [handle_first_response, hx]
  · intro y hy
    simp [handle_resolution, hy]

/-- Witness for C4 at a ticket with both outcomes recorded, far past both
deadlines. -/
theorem claim_C4_witness :
    handle_first_response exEnv 1000 exGuardedTicket (newRecord "TKT-3") =
      (newRecord "TKT-3", []) ∧
    handle_resolution exEnv 1000 exGuardedTicket (newRecord "TKT-3") =
      (newRecord "TKT-3", []) :=
  ⟨(claim_C4 exEnv 1000 exGuardedTicket (newRecord "TKT-3")).1 5 rfl,
   (claim_C4 exEnv 1000 exGuardedTicket (newRecord "TKT-3")).2 7 rfl⟩

/-- C8: `record_first_response_time` writes the evaluation time exactly
when the ticket is In-Progress and the field is unset; `record_resolution_time`
copies the ticket's resolution date exactly when it is present and the
record's field is unset; otherwise both leave the record unchanged. -/
theorem claim_C8 :
    ∀ (now : ℚ) (t : Ticket) (su : SlaUpdate),
      (t.status = Status.InProgress → su.first_responded_on = none →
        record_first_response_time now t su =
          { su with first_responded_on := some now }) ∧
      (¬ t.status = Status.InProgress → record_first_response_time now t su = su) ∧
      (su.first_responded_on ≠ none → record_first_response_time now t su = su) ∧
      (t.resolution_date.isSome → su.resolution_date = none →
        record_resolution_time t su =
          { su with resolution_date := t.resolution_date }) ∧
      (t.resolution_date = none → record_resolution_time t su = su) ∧
      (su.resolution_date ≠ none → record_resolution_time t su = su) := by
  intro now t su
  refine ⟨?_, ?_, ?_, ?_, ?_, ?_⟩
  · intro h1 h2
    simp [record_first_response_time, h1, h2]
  · intro h
    simp [record_first_response_time, h]
  · intro h
    simp [record_first_response_time, h]
  · intro h1 h2
    simp [record_resolution_time, h1, h2]
  · intro h
    simp [record_resolution_time, h]
  · intro h
    simp [record_resolution_time, h]

/-- Witness for C8: the recorders fire on an In-Progress ticket and on a
resolved ticket with fresh records. -/
theorem claim_C8_witness :
    record_first_response_time 42 exInProgressTicket (newRecord "TKT-4") =
      { newRecord "TKT-4" with first_responded_on := some 42 } ∧
    record_resolution_time exResolvedTicket (newRecord "TKT-2") =
      { newRecord "TKT-2" with resolution_date := exResolvedTicket.resolution_date } :=
  ⟨(claim_C8 42 exInProgressTicket (newRecord "TKT-4")).1 rfl rfl,
   (claim_C8 0 exResolvedTicket (newRecord "TKT-2")).2.2.2.1 rfl rfl⟩

/-- C9: when a ticket has no open assignment-task recipient, or the
resolved assignee has no e-mail, dispatch sends nothing for any dimension
and milestone (and, being a total function, raises nothing). -/
theorem claim_C9 :
    ∀ (env : Env) (t : Ticket) (sla_type : String) (milestone : ℕ),
      (env.openAssignee t.name = none ∨
        ∃ u, env.openAssignee t.name = some u ∧ env.userEmail u = none) →
      send_email env t sla_type milestone = [] := by
  intro env t sla_type milestone h
  unfold send_email get_ticket_assignee_email
  rcases h with h | ⟨u, hu, he⟩
  · rw [h]
  · rw [hu]
    dsimp only
    rw [he]

/-- Witness for C9 with no open assignee. -/
theorem claim_C9_witness :
    send_email exEnvNoAssignee exOpenTicket "first response" 50 = [] :=
  claim_C9 exEnvNoAssignee exOpenTicket "first response" 50 (Or.inl rfl)

/-- C1 counterexample: a ticket first evaluated at 90% elapsed fires
milestones 50 and 75 only — not the claim's "{50, 75, 100} together":
the 100 flag stays false and only two mails go out. -/
theorem claim_C1_counterexample :
    pctFr exOpenTicket 90 = 90 ∧
    exOpenTicket.first_response_time = none ∧
    (handle_first_response exEnv 90 exOpenTicket (newRecord "TKT-1")).1.fr_50_notified
      = true ∧
    (handle_first_response exEnv 90 exOpenTicket (newRecord "TKT-1")).1.fr_75_notified
      = true ∧
    (handle_first_response exEnv 90 exOpenTicket (newRecord "TKT-1")).1.fr_100_notified
      = false ∧
    (handle_first_response exEnv 90 exOpenTicket (newRecord "TKT-1")).2.length = 2 := by
  have hpct : pctFr exOpenTicket 90 = 90 := by
    show get_percentage (some 0) (some 100) 90 = 90
    exact pct_0_100 90 (by norm_num)
  have hchar := handle_fr_char exEnv 90 exOpenTicket (newRecord "TKT-1") rfl
  refine ⟨hpct, rfl, ?_, ?_, ?_, ?_⟩
  · rw [hchar, hpct]
    show (false || decide (((50 : ℕ) : ℚ) ≤ (90 : ℚ))) = true
    rw [Bool.false_or]
    exact decide_eq_true (by push_cast; norm_num)
  · rw [hchar, hpct]
    show (false || decide (((75 : ℕ) : ℚ) ≤ (90 : ℚ))) = true
    rw [Bool.false_or]
    exact decide_eq_true (by push_cast; norm_num)
  · rw [hchar, hpct]
    show (false || decide (((100 : ℕ) : ℚ) ≤ (90 : ℚ))) = false
    rw [Bool.false_or]
    exact decide_eq_false (by push_cast; norm_num)
  · rw [hchar, hpct]
    have hlist : frNewlyCrossed 90 (newRecord "TKT-1") = [50, 75] := by
      simp only [frNewlyCrossed, List.filter_cons, List.filter_nil, newRecord,
        SlaUpdate.frFlag]
      rw [decide_eq_true (by push_cast; norm_num : ((50 : ℕ) : ℚ) ≤ (90 : ℚ)),
        decide_eq_true (by push_cast; norm_num : ((75 : ℕ) : ℚ) ≤ (90 : ℚ)),
        decide_eq_false (by push_cast; norm_num : ¬ ((100 : ℕ) : ℚ) ≤ (90 : ℚ))]
      rfl
    show ((frNewlyCrossed 90 (newRecord "TKT-1")).flatMap
      (send_email exEnv exOpenTicket "first response")).length = 2
    rw [hlist]
    rfl

/-- C1 (amended): with the guard unset, an evaluation fires exactly the
milestones `m ∈ {50, 75, 100}` with `pct ≥ m` whose flag is still false,
in ascending order with no early break, setting each fired flag; a first
evaluation at 90% elapsed therefore fires exactly {50, 75} — all three
fire together only once `pct ≥ 100`. -/
theorem claim_C1 :
    ∀ (env : Env) (now : ℚ) (t : Ticket) (su : SlaUpdate),
      (t.first_response_time = none →
        handle_first_response env now t su =
          (frSaturate (pctFr t now) su,
            (frNewlyCrossed (pctFr t now) su).flatMap
              (send_email env t "first response"))) ∧
      (t.resolution_time = none →
        handle_resolution env now t su =
          (resSaturate (pctRes t now) su,
            (resNewlyCrossed (pctRes t now) su).flatMap
              (send_email env t "resolution"))) ∧
      List.Sorted (· < ·) (frNewlyCrossed (pctFr t now) su) ∧
      List.Sorted (· < ·) (resNewlyCrossed (pctRes t now) su) ∧
      (∀ n, frNewlyCrossed 90 (newRecord n) = [50, 75]) ∧
      (∀ n pct, 100 ≤ pct → frNewlyCrossed pct (newRecord n) = [50, 75, 100]) := by
  intro env now t su
  refine ⟨handle_fr_char env now t su, handle_res_char env now t su, ?_, ?_, ?_, ?_⟩
  · exact List.Pairwise.filter _ (by decide)
  · exact List.Pairwise.filter _ (by decide)
  · intro n
    simp only [frNewlyCrossed, List.filter_cons, List.filter_nil, newRecord,
      SlaUpdate.frFlag]
    rw [decide_eq_true (by push_cast; norm_num : ((50 : ℕ) : ℚ) ≤ (90 : ℚ)),
      decide_eq_true (by push_cast; norm_num : ((75 : ℕ) : ℚ) ≤ (90 : ℚ)),
      decide_eq_false (by push_cast; norm_num : ¬ ((100 : ℕ) : ℚ) ≤ (90 : ℚ))]
    rfl
  · intro n pct hge
    simp only [frNewlyCrossed, List.filter_cons, List.filter_nil, newRecord,
      SlaUpdate.frFlag]
    rw [decide_eq_true (by push_cast; linarith : ((50 : ℕ) : ℚ) ≤ pct),
      decide_eq_true (by push_cast; linarith : ((75 : ℕ) : ℚ) ≤ pct),
      decide_eq_true (by push_cast; linarith : ((100 : ℕ) : ℚ) ≤ pct)]
    rfl

/-- Witness for C1: the characterization applied to the 90%-elapsed
catch-up ticket. -/
theorem claim_C1_witness :
    handle_first_response exEnv 90 exOpenTicket (newRecord "TKT-1") =
      (frSaturate (pctFr exOpenTicket 90) (newRecord "TKT-1"),
        (frNewlyCrossed (pctFr exOpenTicket 90) (newRecord "TKT-1")).flatMap
          (send_email exEnv exOpenTicket "first response")) :=
  (claim_C1 exEnv 90 exOpenTicket (newRecord "TKT-1")).1 rfl

/-- C5 counterexample: at exactly `resolution_date + 48h` the closer does
not close the ticket (the code's comparison is strict `<`), contrary to
the claim's "at exactly resolution_date + 48h the ticket is closed". -/
theorem claim_C5_counterexample :
    exResolvedTicket.status = Status.Resolved ∧
    exResolvedTicket.resolution_date = some 0 ∧
    (close_ticket (0 + 172800) exResolvedTicket).status = Status.Resolved := by
  refine ⟨rfl, rfl, ?_⟩
  have hn : ¬ ((0 : ℚ) + 172800 < 0 + 172800) := by norm_num
  simp [close_ticket, exResolvedTicket, hn]

/-- C5 (amended): a Resolved ticket is closed exactly when
`resolution_date + 2 days < now` (strictly after the 48-hour point); at
`+47h` — and even at exactly `+48h` — it stays Resolved, and a Closed
ticket is never touched again. -/
theorem claim_C5 :
    ∀ (now : ℚ) (t : Ticket) (d : ℚ),
      (t.status = Status.Resolved → t.resolution_date = some d →
        ((close_ticket now t).status = Status.Closed ↔ d + 172800 < now)) ∧
      (t.status = Status.Resolved → t.resolution_date = some d → d + 172800 < now →
        close_ticket now t = { t with status := Status.Closed }) ∧
      (t.status = Status.Resolved → t.resolution_date = some d →
        ¬ d + 172800 < now → close_ticket now t = t) ∧
      (t.status = Status.Closed → close_ticket now t = t) ∧
      close_resolved_tickets now [t] = [close_ticket now t] := by
  intro now t d
  have hclosed : ∀ h : t.status = Status.Closed, close_ticket now t = t := by
    intro h
    exact close_ticket_not_resolved (by rw [h]; exact fun he => Status.noConfusion he)
  refine ⟨?_, ?_, ?_, hclosed, rfl⟩
  · intro h hd
    constructor
    · intro hc
      by_contra hn
      have heq : close_ticket now t = t := by simp [close_ticket, h, hd, hn]
      rw [heq, h] at hc
      exact Status.noConfusion hc
    · intro hlt
      simp [close_ticket, h, hd, hlt]
  · intro h hd hlt
    simp [close_ticket, h, hd, hlt]
  · intro h hd hn
    simp [close_ticket, h, hd, hn]

/-- Witness for C5: strictly after the grace period the ticket closes; at
47 hours it does not. -/
theorem claim_C5_witness :
    (close_ticket 172801 exResolvedTicket).status = Status.Closed ∧
    close_ticket 169200 exResolvedTicket = exResolvedTicket :=
  ⟨((claim_C5 172801 exResolvedTicket 0).1 rfl rfl).mpr (by norm_num),
   (claim_C5 169200 exResolvedTicket 0).2.2.1 rfl rfl (by norm_num)⟩

/-- C10: a milestone crossed while no assignee e-mail resolves still sets
and keeps its notified flag although no mail went out, so that milestone
never fires again in any later evaluation, whatever assignee exists by
then. -/
theorem claim_C10 :
    ∀ (env : Env) (now : ℚ) (t : Ticket) (su : SlaUpdate) (m : ℕ),
      get_ticket_assignee_email env t.name = none →
      t.first_response_time = none →
      m ∈ ([50, 75, 100] : List ℕ) →
      (m : ℚ) ≤ pctFr t now →
      (handle_first_response env now t su).2 = [] ∧
      (handle_first_response env now t su).1.frFlag m = true ∧
      (∀ (env' : Env) (now' : ℚ) (su' : SlaUpdate),
        RecLe (handle_first_response env now t su).1 su' →
        m ∉ frTransitions su' (handle_first_response env' now' t su').1) := by
  intro env now t su m hmail hguard hm hle
  have hchar := handle_fr_char env now t su hguard
  have hsend : ∀ k, send_email env t "first response" k = [] := by
    intro k
    unfold send_email
    rw [hmail]
  have hflag1 : (handle_first_response env now t su).1.frFlag m = true := by
    rw [hchar]
    show (frSaturate (pctFr t now) su).frFlag m = true
    rw [frSaturate_flag _ _ m hm]
    simp [decide_eq_true hle]
  refine ⟨?_, hflag1, ?_⟩
  · rw [hchar]
    show (frNewlyCrossed (pctFr t now) su).flatMap
      (send_email env t "first response") = []
    exact flatMap_nil_of _ _ hsend
  · intro env' now' su' hrec
    exact frTransitions_not_mem (frFlag_mono hrec m hm hflag1)

/-- C2: flags only move false → true and timestamps only null → set under
every engine operation (recorders, both handlers, and a whole `run`); each
evaluation's mail comes exactly from the flags that flip in it; and along
any threaded sequence of evaluations each milestone flips — hence
notifies — at most once per dimension. -/
theorem claim_C2 :
    (∀ (now : ℚ) (t : Ticket) (su : SlaUpdate),
      RecLe su (record_first_response_time now t su)) ∧
    (∀ (t : Ticket) (su : SlaUpdate), RecLe su (record_resolution_time t su)) ∧
    (∀ (env : Env) (now : ℚ) (t : Ticket) (su : SlaUpdate),
      RecLe su (handle_first_response env now t su).1) ∧
    (∀ (env : Env) (now : ℚ) (t : Ticket) (su : SlaUpdate),
      RecLe su (handle_resolution env now t su).1) ∧
    (∀ (env : Env) (now : ℚ) (w : World), StoreLe w.store (run env now w).1.store) ∧
    (∀ (env : Env) (now : ℚ) (t : Ticket) (su : SlaUpdate),
      (handle_first_response env now t su).2 =
        (frTransitions su (handle_first_response env now t su).1).flatMap
          (send_email env t "first response")) ∧
    (∀ (env : Env) (now : ℚ) (t : Ticket) (su : SlaUpdate),
      (handle_resolution env now t su).2 =
        (resTransitions su (handle_resolution env now t su).1).flatMap
          (send_email env t "resolution")) ∧
    (∀ (cs : List (Env × ℚ)) (t : Ticket) (su : SlaUpdate) (m : ℕ),
      List.count m (evalSeqFr cs t su).2 ≤ 1) ∧
    (∀ (cs : List (Env × ℚ)) (t : Ticket) (su : SlaUpdate) (m : ℕ),
      List.count m (evalSeqRes cs t su).2 ≤ 1) := by
  refine ⟨recLe_record_fr, recLe_record_res, recLe_handle_fr, recLe_handle_res,
    ?_, handle_fr_emails, handle_res_emails, evalSeqFr_count, evalSeqRes_count⟩
  intro env now w
  exact storeLe_trans
    (storeLe_statePhase now (get_tickets_by_status w
      [Status.Open, Status.InProgress, Status.Resolved, Status.Closed]) w.store)
    (storeLe_trans
      (storeLe_frPhase_aux env now (get_tickets_by_status w [Status.Open])
        (runStatePhase now (get_tickets_by_status w
          [Status.Open, Status.InProgress, Status.Resolved, Status.Closed]) w.store) [])
      (storeLe_resPhase_aux env now
        (get_tickets_by_status w [Status.Open, Status.InProgress])
        ((get_tickets_by_status w [Status.Open]).foldl (frPhaseStep env now)
          (runStatePhase now (get_tickets_by_status w
            [Status.Open, Status.InProgress, Status.Resolved, Status.Closed]) w.store,
            [])).1 []))

/-- Witness for C2: the at-most-once bound applied to a concrete
single-evaluation sequence. -/
theorem claim_C2_witness :
    List.count 50 (evalSeqFr [(exEnv, 60)] exOpenTicket (newRecord "TKT-1")).2 ≤ 1 :=
  claim_C2.2.2.2.2.2.2.2.1 [(exEnv, 60)] exOpenTicket (newRecord "TKT-1") 50

/-- C7: running one full cycle and immediately running a second cycle at
the same evaluation instant, with no external ticket-state changes in
between, sends zero notifications in the second cycle. -/
theorem claim_C7 :
    ∀ (env : Env) (now : ℚ) (w : World), (run env now (run env now w).1).2 = [] := by
  intro env now w
  have hdone := run_cycle_done env now w
  have hopen : get_tickets_by_status (run env now w).1 [Status.Open] =
      get_tickets_by_status w [Status.Open] :=
    close_filter now w.tickets [Status.Open] rfl rfl
  have hresl : get_tickets_by_status (run env now w).1 [Status.Open, Status.InProgress] =
      get_tickets_by_status w [Status.Open, Status.InProgress] :=
    close_filter now w.tickets [Status.Open, Status.InProgress] rfl rfl
  apply run_emails_of_done env now (run env now w).1
  · intro t ht
    rw [hopen] at ht
    exact hdone.1 t ht
  · intro t ht
    rw [hresl] at ht
    exact hdone.2 t ht

/-!  Infrastructure for C6: error propagation in the fallible model. -/

/-- An error raised while handling the first open ticket aborts the whole
cycle: `runF` returns that error, whatever the remaining tickets are. -/
theorem runF_error_head (env : FEnv) (now : ℚ) (w : World) (t : Ticket)
    (rest : List Ticket) (e : String)
    (hopen : get_tickets_by_status w [Status.Open] = t :: rest)
    (herr : handle_first_response_f env now t
      (get_or_create_sla_update (runStatePhase now (get_tickets_by_status w
        [Status.Open, Status.InProgress, Status.Resolved, Status.Closed]) w.store)
        t.name).1 = Except.error e) :
    runF env now w = Except.error e := by
  have hstep : frPhaseStepF env now (runStatePhase now (get_tickets_by_status w
      [Status.Open, Status.InProgress, Status.Resolved, Status.Closed]) w.store, []) t =
      Except.error e := by
    unfold frPhaseStepF
    dsimp only
    rw [herr]
  have hphase : runFrPhaseF env now (t :: rest) (runStatePhase now
      (get_tickets_by_status w
        [Status.Open, Status.InProgress, Status.Resolved, Status.Closed]) w.store) =
      Except.error e := by
    unfold runFrPhaseF
    rw [List.foldlM_cons, hstep]
    rfl
  simp only [runF]
  rw [hopen, hphase]

/-- The percentage the fallible handler computes for ticket A at `now = 60`. -/
theorem pctA_60 : get_percentage exTicketA.creation exTicketA.response_by 60 = 60 := by
  show get_percentage (some 0) (some 100) 60 = 60
  exact pct_0_100 60 (by norm_num)

/-- Handling ticket A under `exFEnv` raises: the transport rejects its
assignee's address at the 50% milestone. -/
theorem handleA_error :
    handle_first_response_f exFEnv 60 exTicketA (newRecord "A") =
      Except.error "mail delivery failed: A@example.com" := by
  show ([50, 75, 100] : List ℕ).foldlM (frStepF exFEnv exTicketA
      (get_percentage exTicketA.creation exTicketA.response_by 60))
      (newRecord "A", []) = Except.error "mail delivery failed: A@example.com"
  rw [pctA_60, List.foldlM_cons]
  have hstep : frStepF exFEnv exTicketA 60 (newRecord "A", []) 50 =
      Except.error "mail delivery failed: A@example.com" := by
    unfold frStepF
    rw [if_neg (by push_cast; norm_num : ¬ ((60 : ℚ) < ((50 : ℕ) : ℚ)))]
    rfl
  rw [hstep]
  rfl

/-- C6 counterexample: with ticket B queued right after ticket A, a mail
failure on A makes the cycle return an uncaught error — B is never
evaluated and no mail at all goes out, contradicting "log and continue". -/
theorem claim_C6_counterexample :
    get_tickets_by_status exWorldAB [Status.Open] = [exTicketA, exTicketB] ∧
    runF exFEnv 60 exWorldAB =
      Except.error "mail delivery failed: A@example.com" :=
  ⟨rfl, runF_error_head exFEnv 60 exWorldAB exTicketA [exTicketB] _ rfl handleA_error⟩

/-- Processing one more ticket after a successful prefix: if that ticket's
step raises, the whole pass returns the error, whatever tickets follow. -/
theorem foldlM_append_error {α β : Type} (f : β → α → Except String β)
    (L1 L2 : List α) (t : α) (b acc' : β) (e : String)
    (h1 : L1.foldlM f b = Except.ok acc')
    (h2 : f acc' t = Except.error e) :
    (L1 ++ t :: L2).foldlM f b = Except.error e := by
  induction L1 generalizing b with
  | nil =>
      have h1' : Except.ok b = Except.ok acc' := h1
      injection h1' with hb
      subst hb
      rw [List.nil_append, List.foldlM_cons, h2]
      rfl
  | cons a L1 ih =>
      rw [List.foldlM_cons] at h1
      cases hfa : f b a with
      | error e' =>
          rw [hfa] at h1
          exact Except.noConfusion h1
      | ok b' =>
          rw [hfa] at h1
          have h1' : L1.foldlM f b' = Except.ok acc' := h1
          rw [List.cons_append, List.foldlM_cons, hfa]
          show List.foldlM f b' (L1 ++ t :: L2) = Except.error e
          exact ih b' h1'

/-- C6 (amended): `run` contains no exception handling, so a mail-delivery
or persistence failure while processing any one ticket — in either
milestone pass, at any position in the fetch order — propagates out and
aborts the whole cycle with that error; the tickets after the failing one
are not evaluated. -/
theorem claim_C6 :
    (∀ (env : FEnv) (now : ℚ) (acc : List SlaUpdate × List Email) (t : Ticket)
      (e : String),
      handle_first_response_f env now t
        (get_or_create_sla_update acc.1 t.name).1 = Except.error e →
      frPhaseStepF env now acc t = Except.error e) ∧
    (∀ (env : FEnv) (now : ℚ) (acc : List SlaUpdate × List Email) (t : Ticket)
      (r : SlaUpdate × List Email),
      handle_first_response_f env now t
        (get_or_create_sla_update acc.1 t.name).1 = Except.ok r →
      env.saveOk t.name = false →
      frPhaseStepF env now acc t = Except.error ("save failed: " ++ t.name)) ∧
    (∀ (env : FEnv) (now : ℚ) (acc : List SlaUpdate × List Email) (t : Ticket)
      (e : String),
      handle_resolution_f env now t
        (get_or_create_sla_update acc.1 t.name).1 = Except.error e →
      resPhaseStepF env now acc t = Except.error e) ∧
    (∀ (env : FEnv) (now : ℚ) (acc : List SlaUpdate × List Email) (t : Ticket)
      (r : SlaUpdate × List Email),
      handle_resolution_f env now t
        (get_or_create_sla_update acc.1 t.name).1 = Except.ok r →
      env.saveOk t.name = false →
      resPhaseStepF env now acc t = Except.error ("save failed: " ++ t.name)) ∧
    (∀ (env : FEnv) (now : ℚ) (L1 L2 : List Ticket) (t : Ticket)
      (b acc' : List SlaUpdate × List Email) (e : String),
      L1.foldlM (frPhaseStepF env now) b = Except.ok acc' →
      frPhaseStepF env now acc' t = Except.error e →
      (L1 ++ t :: L2).foldlM (frPhaseStepF env now) b = Except.error e) ∧
    (∀ (env : FEnv) (now : ℚ) (L1 L2 : List Ticket) (t : Ticket)
      (b acc' : List SlaUpdate × List Email) (e : String),
      L1.foldlM (resPhaseStepF env now) b = Except.ok acc' →
      resPhaseStepF env now acc' t = Except.error e →
      (L1 ++ t :: L2).foldlM (resPhaseStepF env now) b = Except.error e) ∧
    (∀ (env : FEnv) (now : ℚ) (w : World) (e : String),
      runFrPhaseF env now (get_tickets_by_status w [Status.Open])
        (runStatePhase now (get_tickets_by_status w
          [Status.Open, Status.InProgress, Status.Resolved, Status.Closed]) w.store) =
        Except.error e →
      runF env now w = Except.error e) ∧
    (∀ (env : FEnv) (now : ℚ) (w : World) (p2 : List SlaUpdate × List Email)
      (e : String),
      runFrPhaseF env now (get_tickets_by_status w [Status.Open])
        (runStatePhase now (get_tickets_by_status w
          [Status.Open, Status.InProgress, Status.Resolved, Status.Closed]) w.store) =
        Except.ok p2 →
      runResPhaseF env now (get_tickets_by_status w [Status.Open, Status.InProgress])
        p2.1 = Except.error e →
      runF env now w = Except.error e) := by
  refine ⟨?_, ?_, ?_, ?_, ?_, ?_, ?_, ?_⟩
  · intro env now acc t e herr
    unfold frPhaseStepF
    dsimp only
    rw [herr]
  · intro env now acc t r hok hsave
    unfold frPhaseStepF
    dsimp only
    rw [hok]
    simp [hsave]
  · intro env now acc t e herr
    unfold resPhaseStepF
    dsimp only
    rw [herr]
  · intro env now acc t r hok hsave
    unfold resPhaseStepF
    dsimp only
    rw [hok]
    simp [hsave]
  · intro env now L1 L2 t b acc' e h1 h2
    exact foldlM_append_error (frPhaseStepF env now) L1 L2 t b acc' e h1 h2
  · intro env now L1 L2 t b acc' e h1 h2
    exact foldlM_append_error (resPhaseStepF env now) L1 L2 t b acc' e h1 h2
  · intro env now w e hphase
    simp only [runF]
    rw [hphase]
  · intro env now w p2 e hok hres
    simp only [runF]
    rw [hok]
    dsimp only
    rw [hres]

/-- Witness for C6 at the concrete two-ticket world: ticket A's mail
failure raises in its step, aborts the first-response pass with ticket B
still queued, and the whole cycle returns the error. -/
theorem claim_C6_witness :
    runF exFEnv 60 exWorldAB =
      Except.error "mail delivery failed: A@example.com" := by
  have h1 : frPhaseStepF exFEnv 60
      (runStatePhase 60 (get_tickets_by_status exWorldAB
        [Status.Open, Status.InProgress, Status.Resolved, Status.Closed])
        exWorldAB.store, []) exTicketA =
      Except.error "mail delivery failed: A@example.com" :=
    claim_C6.1 exFEnv 60 _ exTicketA _ handleA_error
  have h2 : (([] : List Ticket) ++ exTicketA :: [exTicketB]).foldlM
      (frPhaseStepF exFEnv 60)
      (runStatePhase 60 (get_tickets_by_status exWorldAB
        [Status.Open, Status.InProgress, Status.Resolved, Status.Closed])
        exWorldAB.store, []) =
      Except.error "mail delivery failed: A@example.com" :=
    claim_C6.2.2.2.2.1 exFEnv 60 [] [exTicketB] exTicketA _ _ _ rfl h1
  exact claim_C6.2.2.2.2.2.2.1 exFEnv 60 exWorldAB _ h2

/-- Witness for C10: at 60% with no assignee, the 50 milestone is flagged
silently. -/
theorem claim_C10_witness :
    (handle_first_response exEnvNoAssignee 60 exOpenTicket (newRecord "TKT-1")).2
      = [] ∧
    (handle_first_response exEnvNoAssignee 60 exOpenTicket
      (newRecord "TKT-1")).1.frFlag 50 = true :=
  have hp : ((50 : ℕ) : ℚ) ≤ pctFr exOpenTicket 60 := by
    have h60 : pctFr exOpenTicket 60 = 60 := pct_0_100 60 (by norm_num)
    rw [h60]
    push_cast
    norm_num
  ⟨(claim_C10 exEnvNoAssignee 60 exOpenTicket (newRecord "TKT-1") 50 rfl rfl
      (by decide) hp).1,
   (claim_C10 exEnvNoAssignee 60 exOpenTicket (newRecord "TKT-1") 50 rfl rfl
      (by decide) hp).2.1⟩

end SlaEngine


